import Mathlib

/-!
Shallow embedding of the Paperfold.js kinematic and collision engine
(src/paperfold.js).

JavaScript numbers are modelled as exact rationals.  The ambient functions
of the JavaScript Math object (sqrt, atan2, cos, sin) are passed around as a
`JsMath` record of rational-valued functions, which keeps every definition
executable; theorems that need the square root to be exact state that as an
explicit pointwise hypothesis, and the concrete test runs only ever take
square roots of perfect squares of rationals, on which `Rat.sqrt` agrees
exactly with the IEEE-754 double `Math.sqrt`.

The per-body animation state of `moveBlock` is split exactly as in the
source: the `animate` closure owns the integration speeds
(`currentSpeedX`/`currentSpeedY` local variables, here `ClosureState`) and
the captured viewport extents (`screenWidth`/`screenHeight`), while the
`activeBlockAnimations` map holds one `AnimData` per body id (the
`animationData` objects).  Purely visual fields of `Block` (border, level,
opacity) play no role in the engine and are not modelled.
-/

inductive Shape
  | square
  | circle
deriving DecidableEq

inductive BoundaryPolicy
  | front
  | back
  | pass
  | bounce
deriving DecidableEq

inductive CollisionPolicy
  | stop
  | bounce
  | pass
deriving DecidableEq

/-- Geometric state of one block (class `Block`, src/paperfold.js:121-183).
`x`, `y` are top-left anchored for squares and center anchored for
circles. -/
structure Block where
  id : Nat
  shape : Shape
  x : ℚ
  y : ℚ
  size : ℚ
  scale_x : ℚ
  scale_y : ℚ
deriving DecidableEq

/-- Getter `actualWidth` (src/paperfold.js:140-142). -/
def Block.actualWidth (b : Block) : ℚ :=
  if b.shape = Shape.square then b.size * (1 + b.scale_x / 100)
  else 2 * b.size * (1 + b.scale_x / 100)

/-- Getter `actualHeight` (src/paperfold.js:144-146). -/
def Block.actualHeight (b : Block) : ℚ :=
  if b.shape = Shape.square then b.size * (1 + b.scale_y / 100)
  else 2 * b.size * (1 + b.scale_y / 100)

/-- Getter `radiusX` (src/paperfold.js:148-150). -/
def Block.radiusX (b : Block) : ℚ :=
  if b.shape = Shape.circle then b.size * (1 + b.scale_x / 100) else 0

/-- Getter `radiusY` (src/paperfold.js:152-154). -/
def Block.radiusY (b : Block) : ℚ :=
  if b.shape = Shape.circle then b.size * (1 + b.scale_y / 100) else 0

/-- Constructor options object; `none` models an absent (undefined)
property. -/
structure BlockOptions where
  id : Option Nat
  shape : Option String
  x : Option ℚ
  y : Option ℚ
  size : Option ℚ
  scale_x : Option ℚ
  scale_y : Option ℚ

/-- JavaScript `v || d` on an optional number: an absent property and the
falsy number `0` both fall back to the default. -/
def jsOrNum (o : Option ℚ) (d : ℚ) : ℚ :=
  match o with
  | none => d
  | some v => if v = 0 then d else v

/-- JavaScript `v || d` on an optional string: absent and empty both fall
back to the default. -/
def jsOrStr (o : Option String) (d : String) : String :=
  match o with
  | none => d
  | some s => if s = "" then d else s

/-- The `Block` constructor (src/paperfold.js:122-138): numeric options go
through `||`-defaulting (so falsy `0` is replaced by the default), the scale
factors use an explicit `=== undefined` test, and an unknown shape string is
coerced to square. -/
def Block.construct (o : BlockOptions) (freshId : Nat) : Block :=
  let shapeStr := jsOrStr o.shape "square"
  { id := o.id.getD freshId
    shape :=
      if shapeStr = "square" then Shape.square
      else if shapeStr = "circle" then Shape.circle
      else Shape.square
    x := jsOrNum o.x 0
    y := jsOrNum o.y 0
    size := jsOrNum o.size 50
    scale_x := o.scale_x.getD 0
    scale_y := o.scale_y.getD 0 }

/-- Method `resize` (src/paperfold.js:178-182): `none` models a non-number
argument, which is rejected by the `typeof` test. -/
def Block.resize (b : Block) (newSize : Option ℚ) : Block :=
  match newSize with
  | some s => if s ≥ 0 then { b with size := s } else b
  | none => b

/-- Truncation toward zero, as JavaScript division-based remainder uses. -/
def ratTrunc (q : ℚ) : ℤ :=
  if 0 ≤ q then ⌊q⌋ else ⌈q⌉

/-- The JavaScript remainder operator `%` on exact numbers: the result has
the sign of the dividend. -/
def jsRem (i n : ℚ) : ℚ :=
  i - n * ratTrunc (i / n)

/-- Helper `positiveModulo` (src/paperfold.js:188-190):
`(i % n + n) % n` with the JavaScript remainder. -/
def positiveModulo (i n : ℚ) : ℚ :=
  jsRem (jsRem i n + n) n

/-- The ambient JavaScript Math functions, as rational-valued parameters.
`atan2Deg vy vx` stands for `Math.atan2(vy, vx) * 180 / Math.PI`, and
`cosDeg`/`sinDeg` for cosine/sine of an angle given in degrees. -/
structure JsMath where
  sqrt : ℚ → ℚ
  atan2Deg : ℚ → ℚ → ℚ
  cosDeg : ℚ → ℚ
  sinDeg : ℚ → ℚ

/-- The fields of an `animationData` record relevant to the engine
(src/paperfold.js:487-497): the persisted speeds and direction angle. -/
structure AnimData where
  currentSpeedX : ℚ
  currentSpeedY : ℚ
  angle : ℚ
deriving DecidableEq

/-- Lookup in the `activeBlockAnimations` map, modelled as an association
list keyed by block id. -/
def lookupRec (recs : List (Nat × AnimData)) (i : Nat) : Option AnimData :=
  (recs.find? (fun p => p.1 == i)).map Prod.snd

/-- Mutation of the record object stored for id `i`: a write through
`activeBlockAnimations.get(i)` changes only an entry that is present. -/
def setRec (recs : List (Nat × AnimData)) (i : Nat) (a : AnimData) :
    List (Nat × AnimData) :=
  recs.map (fun p => if p.1 == i then (i, a) else p)

/-- Deletion from the `activeBlockAnimations` map (`stopMovingBlock`,
src/paperfold.js:511-516). -/
def removeRec (recs : List (Nat × AnimData)) (i : Nat) :
    List (Nat × AnimData) :=
  recs.filter (fun p => p.1 != i)

/-- Result of one boundary-policy branch of `animate`: the corrected block,
the (possibly inverted) closure speeds, the `stopAnimation` flag and the
`bounced` flag. -/
structure BoundaryOut where
  blk : Block
  vx : ℚ
  vy : ℚ
  stop : Bool
  bounced : Bool
deriving DecidableEq

/-- Boundary collision logic of `animate` (src/paperfold.js:261-370),
transcribed branch by branch.  `sw`, `sh` are the screen extents the closure
captured; `vx`, `vy` are the closure speeds.  The axes are tested in
sequence exactly as in the source; under `front`/`back` an axis is only
tested when the speed on that axis points at the edge, under `bounce` the
edge tests are unconditional and invert the speed, under `pass` each axis is
wrapped with `positiveModulo`. -/
def boundaryStep (bp : BoundaryPolicy) (sw sh vx vy : ℚ) (b : Block) :
    BoundaryOut :=
  match bp with
  | BoundaryPolicy.front =>
    match b.shape with
    | Shape.square =>
      let px :=
        if vx > 0 ∧ b.x + b.actualWidth ≥ sw then (sw - b.actualWidth, true)
        else if vx < 0 ∧ b.x ≤ 0 then ((0 : ℚ), true)
        else (b.x, false)
      let py :=
        if vy > 0 ∧ b.y + b.actualHeight ≥ sh then (sh - b.actualHeight, true)
        else if vy < 0 ∧ b.y ≤ 0 then ((0 : ℚ), true)
        else (b.y, false)
      ⟨{ b with x := px.1, y := py.1 }, vx, vy, px.2 || py.2, false⟩
    | Shape.circle =>
      let px :=
        if vx > 0 ∧ b.x + b.radiusX ≥ sw then (sw - b.radiusX, true)
        else if vx < 0 ∧ b.x - b.radiusX ≤ 0 then (b.radiusX, true)
        else (b.x, false)
      let py :=
        if vy > 0 ∧ b.y + b.radiusY ≥ sh then (sh - b.radiusY, true)
        else if vy < 0 ∧ b.y - b.radiusY ≤ 0 then (b.radiusY, true)
        else (b.y, false)
      ⟨{ b with x := px.1, y := py.1 }, vx, vy, px.2 || py.2, false⟩
  | BoundaryPolicy.back =>
    match b.shape with
    | Shape.square =>
      let px :=
        if vx > 0 ∧ b.x ≥ sw then (sw, true)
        else if vx < 0 ∧ b.x + b.actualWidth ≤ 0 then (-b.actualWidth, true)
        else (b.x, false)
      let py :=
        if vy > 0 ∧ b.y ≥ sh then (sh, true)
        else if vy < 0 ∧ b.y + b.actualHeight ≤ 0 then (-b.actualHeight, true)
        else (b.y, false)
      ⟨{ b with x := px.1, y := py.1 }, vx, vy, px.2 || py.2, false⟩
    | Shape.circle =>
      let px :=
        if vx > 0 ∧ b.x - b.radiusX ≥ sw then (sw + b.radiusX, true)
        else if vx < 0 ∧ b.x + b.radiusX ≤ 0 then (-b.radiusX, true)
        else (b.x, false)
      let py :=
        if vy > 0 ∧ b.y - b.radiusY ≥ sh then (sh + b.radiusY, true)
        else if vy < 0 ∧ b.y + b.radiusY ≤ 0 then (-b.radiusY, true)
        else (b.y, false)
      ⟨{ b with x := px.1, y := py.1 }, vx, vy, px.2 || py.2, false⟩
  | BoundaryPolicy.bounce =>
    match b.shape with
    | Shape.square =>
      let px :=
        if b.x ≤ 0 then ((0 : ℚ), -vx, true)
        else if b.x + b.actualWidth ≥ sw then (sw - b.actualWidth, -vx, true)
        else (b.x, vx, false)
      let py :=
        if b.y ≤ 0 then ((0 : ℚ), -vy, true)
        else if b.y + b.actualHeight ≥ sh then (sh - b.actualHeight, -vy, true)
        else (b.y, vy, false)
      ⟨{ b with x := px.1, y := py.1 }, px.2.1, py.2.1, false, px.2.2 || py.2.2⟩
    | Shape.circle =>
      let px :=
        if b.x - b.radiusX ≤ 0 then (b.radiusX, -vx, true)
        else if b.x + b.radiusX ≥ sw then (sw - b.radiusX, -vx, true)
        else (b.x, vx, false)
      let py :=
        if b.y - b.radiusY ≤ 0 then (b.radiusY, -vy, true)
        else if b.y + b.radiusY ≥ sh then (sh - b.radiusY, -vy, true)
        else (b.y, vy, false)
      ⟨{ b with x := px.1, y := py.1 }, px.2.1, py.2.1, false, px.2.2 || py.2.2⟩
  | BoundaryPolicy.pass =>
    match b.shape with
    | Shape.square =>
      let ww := sw + b.actualWidth
      let wh := sh + b.actualHeight
      ⟨{ b with
          x := positiveModulo (b.x + b.actualWidth) ww - b.actualWidth
          y := positiveModulo (b.y + b.actualHeight) wh - b.actualHeight },
        vx, vy, false, false⟩
    | Shape.circle =>
      let ww := sw + 2 * b.radiusX
      let wh := sh + 2 * b.radiusY
      ⟨{ b with
          x := positiveModulo (b.x + b.radiusX) ww - b.radiusX
          y := positiveModulo (b.y + b.radiusY) wh - b.radiusY },
        vx, vy, false, false⟩

/-- Result of the inter-block collision handling of one loop iteration:
updated moving block, updated partner, updated record map, whether a
resolution took place, and the immediate visual-sync calls made. -/
structure CollOut where
  bm : Block
  other : Block
  recs : List (Nat × AnimData)
  resolved : Bool
  visuals : List (Nat × ℚ × ℚ)
deriving DecidableEq

/-- One iteration of the inter-block collision loop of `animate`
(src/paperfold.js:374-469): skip self, only circle-circle pairs are
handled, overlap iff center distance is below the radius sum, resolution
requires animation records for both bodies, and the `stop`/`bounce`
policies update positions and records as in the source.  Velocities are
read from and written to the records, not the closure. -/
def collideStep (m : JsMath) (cp : CollisionPolicy) (bm other : Block)
    (recs : List (Nat × AnimData)) : CollOut :=
  if bm.id = other.id then ⟨bm, other, recs, false, []⟩
  else if bm.shape = Shape.circle ∧ other.shape = Shape.circle then
    let dx := other.x - bm.x
    let dy := other.y - bm.y
    let distance := m.sqrt (dx * dx + dy * dy)
    let minDistance := bm.radiusX + other.radiusX
    if distance < minDistance then
      match lookupRec recs bm.id, lookupRec recs other.id with
      | some bmAD, some otAD =>
        match cp with
        | CollisionPolicy.stop =>
          let recs1 := setRec recs bm.id
            { bmAD with currentSpeedX := 0, currentSpeedY := 0 }
          let recs2 := setRec recs1 other.id
            { otAD with currentSpeedX := 0, currentSpeedY := 0 }
          let overlap := minDistance - distance
          let sepX := overlap * (dx / distance)
          let sepY := overlap * (dy / distance)
          let bm2 : Block :=
            { bm with x := bm.x - sepX * (1 / 2), y := bm.y - sepY * (1 / 2) }
          let ot2 : Block :=
            { other with x := other.x + sepX * (1 / 2), y := other.y + sepY * (1 / 2) }
          let recs3 := removeRec (removeRec recs2 bm.id) other.id
          ⟨bm2, ot2, recs3, true, [(bm2.id, bm2.x, bm2.y), (ot2.id, ot2.x, ot2.y)]⟩
        | CollisionPolicy.bounce =>
          let v1x := bmAD.currentSpeedX
          let v1y := bmAD.currentSpeedY
          let v2x := otAD.currentSpeedX
          let v2y := otAD.currentSpeedY
          let nx := dx / distance
          let ny := dy / distance
          let tx := -ny
          let ty := nx
          let dpNorm1 := v1x * nx + v1y * ny
          let dpTan1 := v1x * tx + v1y * ty
          let dpNorm2 := v2x * nx + v2y * ny
          let dpTan2 := v2x * tx + v2y * ty
          let nv1x := dpNorm2 * nx + dpTan1 * tx
          let nv1y := dpNorm2 * ny + dpTan1 * ty
          let nv2x := dpNorm1 * nx + dpTan2 * tx
          let nv2y := dpNorm1 * ny + dpTan2 * ty
          let recs1 := setRec recs bm.id ⟨nv1x, nv1y, m.atan2Deg nv1y nv1x⟩
          let recs2 := setRec recs1 other.id ⟨nv2x, nv2y, m.atan2Deg nv2y nv2x⟩
          let overlap := minDistance - distance
          let sepX := overlap * nx
          let sepY := overlap * ny
          let bm2 : Block :=
            { bm with x := bm.x - sepX * (1 / 2), y := bm.y - sepY * (1 / 2) }
          let ot2 : Block :=
            { other with x := other.x + sepX * (1 / 2), y := other.y + sepY * (1 / 2) }
          ⟨bm2, ot2, recs2, true, [(bm2.id, bm2.x, bm2.y), (ot2.id, ot2.x, ot2.y)]⟩
        | CollisionPolicy.pass => ⟨bm, other, recs, false, []⟩
      | some _, none => ⟨bm, other, recs, false, []⟩
      | none, some _ => ⟨bm, other, recs, false, []⟩
      | none, none => ⟨bm, other, recs, false, []⟩
    else ⟨bm, other, recs, false, []⟩
  else ⟨bm, other, recs, false, []⟩

/-- The full collision loop over the roster (`for (const otherBlock of
allBlocks)`, src/paperfold.js:374): iterates in roster order with no early
exit, threading the moving block, the partners and the record map through
the iterations.  Returns the final moving block, the updated roster, the
record map, the ids of the partners against which a resolution happened (in
order), and the visual-sync calls made inside the loop. -/
structure LoopOut where
  bm : Block
  roster : List Block
  recs : List (Nat × AnimData)
  resolvedIds : List Nat
  visuals : List (Nat × ℚ × ℚ)
deriving DecidableEq

/-- Folds `collideStep` over the roster in order with no early exit,
threading the moving block and the record map through the iterations. -/
def collideLoop (m : JsMath) (cp : CollisionPolicy) :
    Block → List Block → List (Nat × AnimData) → LoopOut
  | bm, [], recs => ⟨bm, [], recs, [], []⟩
  | bm, o :: rest, recs =>
    let r := collideStep m cp bm o recs
    let l := collideLoop m cp r.bm rest r.recs
    ⟨l.bm, r.other :: l.roster, l.recs,
      (if r.resolved then [o.id] else []) ++ l.resolvedIds, r.visuals ++ l.visuals⟩

/-- The mutable local state of one `animate` closure: the integration speeds
`currentSpeedX`/`currentSpeedY` and the screen extents captured when
`moveBlock` started the motion (src/paperfold.js:240-245). -/
structure ClosureState where
  vx : ℚ
  vy : ℚ
  sw : ℚ
  sh : ℚ
deriving DecidableEq

/-- Outcome of one tick: `errored` when the final `stopAnimation` branch
dereferences a record that is no longer in the map (a thrown TypeError),
`terminal` when the record is cancelled and removed, `halted` when the tick
ends without rescheduling because the record is gone, `rescheduled`
otherwise. -/
inductive TickOutcome
  | errored
  | terminal
  | halted
  | rescheduled
deriving DecidableEq

/-- Everything one tick produces. -/
structure TickResult where
  closure : ClosureState
  blk : Block
  roster : List Block
  recs : List (Nat × AnimData)
  resolvedIds : List Nat
  visuals : List (Nat × ℚ × ℚ)
  outcome : TickOutcome
deriving DecidableEq

/-- One tick of the `animate` closure (src/paperfold.js:247-485): explicit
Euler integration with the closure speeds, the boundary branch (which is the
only place that writes the closure speeds back, persisting them and the
recomputed angle into the record when a boundary bounce happened), the
collision loop (run whenever the collision policy is not pass), the final
visual-sync call, and the termination/reschedule logic, including the
unguarded record dereference on the `stopAnimation` path
(src/paperfold.js:476). -/
def animate (m : JsMath) (bp : BoundaryPolicy) (cp : CollisionPolicy)
    (c : ClosureState) (blk : Block) (roster : List Block)
    (recs : List (Nat × AnimData)) (dt : ℚ) : TickResult :=
  let b1 : Block := { blk with x := blk.x + c.vx * dt, y := blk.y + c.vy * dt }
  let bo := boundaryStep bp c.sw c.sh c.vx c.vy b1
  let recs1 :=
    if bo.bounced then
      setRec recs blk.id ⟨bo.vx, bo.vy, m.atan2Deg bo.vy bo.vx⟩
    else recs
  let lo : LoopOut :=
    if cp ≠ CollisionPolicy.pass then collideLoop m cp bo.blk roster recs1
    else ⟨bo.blk, roster, recs1, [], []⟩
  let c2 : ClosureState := { c with vx := bo.vx, vy := bo.vy }
  let vis2 := lo.visuals ++ [(blk.id, lo.bm.x, lo.bm.y)]
  if bo.stop then
    match lookupRec lo.recs blk.id with
    | none =>
      ⟨c2, lo.bm, lo.roster, lo.recs, lo.resolvedIds, vis2, TickOutcome.errored⟩
    | some _ =>
      ⟨c2, lo.bm, lo.roster, removeRec lo.recs blk.id, lo.resolvedIds, vis2,
        TickOutcome.terminal⟩
  else
    match lookupRec lo.recs blk.id with
    | none =>
      ⟨c2, lo.bm, lo.roster, lo.recs, lo.resolvedIds, vis2, TickOutcome.halted⟩
    | some _ =>
      ⟨c2, lo.bm, lo.roster, lo.recs, lo.resolvedIds, vis2, TickOutcome.rescheduled⟩

/-- State threaded through successive ticks of one body's animation. -/
structure RunState where
  closure : ClosureState
  blk : Block
  roster : List Block
  recs : List (Nat × AnimData)
  outcome : TickOutcome
deriving DecidableEq

/-- Run one scheduled tick: a body ticks again only while its last outcome
was a reschedule. -/
def stepRun (m : JsMath) (bp : BoundaryPolicy) (cp : CollisionPolicy)
    (dt : ℚ) (s : RunState) : RunState :=
  if s.outcome = TickOutcome.rescheduled then
    let r := animate m bp cp s.closure s.blk s.roster s.recs dt
    ⟨r.closure, r.blk, r.roster, r.recs, r.outcome⟩
  else s

/-- Iterated ticks with a fixed frame time. -/
def runTicks (m : JsMath) (bp : BoundaryPolicy) (cp : CollisionPolicy)
    (dt : ℚ) : Nat → RunState → RunState
  | 0, s => s
  | n + 1, s => runTicks m bp cp dt n (stepRun m bp cp dt s)

/-- Iterated ticks of the source code against a resize schedule: each entry
`(dt, w, h)` gives the frame time and the viewport extents current at that
tick.  The `animate` closure reads only the extents captured at start
(src/paperfold.js:244-245), so the schedule extents are ignored. -/
def codeRunSched (m : JsMath) (bp : BoundaryPolicy) (cp : CollisionPolicy) :
    List (ℚ × ℚ × ℚ) → RunState → RunState
  | [], s => s
  | (dt, _, _) :: rest, s => codeRunSched m bp cp rest (stepRun m bp cp dt s)

/-- Follows the words of the specification (Concurrency section): each tick
tests boundary crossings against the viewport extents current at the time
of that tick, so a resize is visible to the next tick.  Written only to be
compared with `codeRunSched`, which models the source. -/
def specRunSched (m : JsMath) (bp : BoundaryPolicy) (cp : CollisionPolicy) :
    List (ℚ × ℚ × ℚ) → RunState → RunState
  | [], s => s
  | (dt, w, h) :: rest, s =>
    specRunSched m bp cp rest
      (stepRun m bp cp dt { s with closure := { s.closure with sw := w, sh := h } })

/-- A JavaScript argument that may fail the `typeof x === 'number'` test. -/
inductive JsNum
  | num (q : ℚ)
  | notNum
deriving DecidableEq

/-- Observable outcome of a `moveBlock` call: the record map, the untouched
roster, whether a diagnostic was logged, and whether a first tick and a
duration timeout were scheduled. -/
structure StartResult where
  recs : List (Nat × AnimData)
  roster : List Block
  logged : Bool
  scheduledTick : Bool
  scheduledTimeout : Bool
deriving DecidableEq

/-- Insertion into the `activeBlockAnimations` map: replaces an existing
entry in place, otherwise appends. -/
def putRec (recs : List (Nat × AnimData)) (i : Nat) (a : AnimData) :
    List (Nat × AnimData) :=
  if (lookupRec recs i).isSome then setRec recs i a else recs ++ [(i, a)]

/-- Entry validation and record creation of `moveBlock`
(src/paperfold.js:214-505): the component must provide
`updateBlockVisuals`, the block must be a `Block` instance (`none` models
any other value), and angle and pps must be numbers; on any violation a
diagnostic is logged and the call returns before touching any state.  On
success the initial speeds are derived from the angle, a record is stored
under the block id, the first tick is scheduled, and a duration timeout is
scheduled when the duration is positive. -/
def moveBlock (m : JsMath) (blockArg : Option Block) (angle pps : JsNum)
    (hasUpdateBlockVisuals : Bool) (duration : ℚ)
    (roster : List Block) (recs : List (Nat × AnimData)) : StartResult :=
  if ¬ hasUpdateBlockVisuals then ⟨recs, roster, true, false, false⟩
  else
    match blockArg with
    | none => ⟨recs, roster, true, false, false⟩
    | some blk =>
      match angle, pps with
      | JsNum.num a, JsNum.num p =>
        let vx := m.cosDeg a * p
        let vy := m.sinDeg a * p
        ⟨putRec recs blk.id ⟨vx, vy, a⟩, roster, false, true, decide (0 < duration)⟩
      | JsNum.num _, JsNum.notNum => ⟨recs, roster, true, false, false⟩
      | JsNum.notNum, JsNum.num _ => ⟨recs, roster, true, false, false⟩
      | JsNum.notNum, JsNum.notNum => ⟨recs, roster, true, false, false⟩

/-- Concrete Math instantiation for the closed test runs below.  Every
square root taken in those runs is of a perfect square of a rational, where
`Rat.sqrt` agrees exactly with the IEEE-754 `Math.sqrt`; the angle
functions never influence any stated conclusion. -/
def testMath : JsMath :=
  { sqrt := Rat.sqrt
    atan2Deg := fun _ _ => 0
    cosDeg := fun _ => 0
    sinDeg := fun _ => 0 }

/-! Helper lemmas about the record map. -/

theorem lookupRec_setRec (recs : List (Nat × AnimData)) (i : Nat) (a : AnimData) :
    lookupRec (setRec recs i a) i = (lookupRec recs i).map (fun _ => a) := by
  induction recs with
  | nil => rfl
  | cons p t ih =>
    by_cases h : p.1 = i
    · simp [lookupRec, setRec, List.find?, h]
    · have hb : (p.1 == i) = false := by simpa using h
      simp only [setRec, List.map_cons, hb, Bool.false_eq_true, if_false]
      simp only [lookupRec, List.find?, hb] at ih ⊢
      simpa [setRec] using ih

theorem lookupRec_setRec_ne (recs : List (Nat × AnimData)) {i j : Nat}
    (h : i ≠ j) (a : AnimData) :
    lookupRec (setRec recs j a) i = lookupRec recs i := by
  induction recs with
  | nil => rfl
  | cons p t ih =>
    by_cases hp : p.1 = j
    · have h1 : (p.1 == j) = true := by simpa using hp
      have h2 : (p.1 == i) = false := by
        simp only [beq_eq_false_iff_ne, ne_eq, hp]
        exact fun hh => h hh.symm
      have h3 : (j == i) = false := by
        simp only [beq_eq_false_iff_ne, ne_eq]
        exact fun hh => h hh.symm
      simp only [setRec, List.map_cons, h1, if_true] at ih ⊢
      simp only [lookupRec, List.find?, h2, h3] at ih ⊢
      simpa [setRec] using ih
    · have h1 : (p.1 == j) = false := by simpa using hp
      by_cases hq : p.1 = i
      · have h2 : (p.1 == i) = true := by simpa using hq
        simp [lookupRec, setRec, List.find?, h1, h2]
      · have h2 : (p.1 == i) = false := by simpa using hq
        simp only [setRec, List.map_cons, h1, Bool.false_eq_true, if_false] at ih ⊢
        simp only [lookupRec, List.find?, h2] at ih ⊢
        simpa [setRec] using ih

theorem lookupRec_removeRec (recs : List (Nat × AnimData)) (i : Nat) :
    lookupRec (removeRec recs i) i = none := by
  induction recs with
  | nil => rfl
  | cons p t ih =>
    by_cases hp : p.1 = i
    · have h1 : (p.1 != i) = false := by simpa using hp
      simpa [removeRec, List.filter_cons, h1] using ih
    · have h1 : (p.1 != i) = true := by simpa using hp
      have h2 : (p.1 == i) = false := by simpa using hp
      simp only [removeRec, List.filter_cons, h1, if_true] at ih ⊢
      simp only [lookupRec, List.find?, h2] at ih ⊢
      exact ih

theorem lookupRec_removeRec_ne (recs : List (Nat × AnimData)) {i j : Nat}
    (h : i ≠ j) :
    lookupRec (removeRec recs j) i = lookupRec recs i := by
  induction recs with
  | nil => rfl
  | cons p t ih =>
    by_cases hp : p.1 = j
    · have h1 : (p.1 != j) = false := by simpa using hp
      have h2 : (p.1 == i) = false := by
        simp only [beq_eq_false_iff_ne, ne_eq, hp]
        exact fun hh => h hh.symm
      simp only [removeRec, List.filter_cons, h1, Bool.false_eq_true, if_false] at ih ⊢
      simp only [lookupRec, List.find?, h2] at ih ⊢
      simpa [removeRec] using ih
    · have h1 : (p.1 != j) = true := by simpa using hp
      by_cases hq : p.1 = i
      · have h2 : (p.1 == i) = true := by simpa using hq
        simp [lookupRec, removeRec, List.filter_cons, h1, h2]
      · have h2 : (p.1 == i) = false := by simpa using hq
        simp only [removeRec, List.filter_cons, h1, if_true] at ih ⊢
        simp only [lookupRec, List.find?, h2] at ih ⊢
        simpa [removeRec] using ih

/-! Helper lemmas about `positiveModulo`. -/

theorem jsRem_of_nonneg {x n : ℚ} (hn : 0 < n) (hx : 0 ≤ x) :
    jsRem x n = n * Int.fract (x / n) := by
  have hne : n ≠ 0 := ne_of_gt hn
  have key : n * (x / n) = x := by field_simp
  unfold jsRem ratTrunc
  rw [if_pos (div_nonneg hx hn.le), ← Int.self_sub_floor, mul_sub, key]

theorem jsRem_cases {i n : ℚ} (hn : 0 < n) :
    jsRem i n = n * Int.fract (i / n) ∨
      jsRem i n = n * Int.fract (i / n) - n := by
  have hne : n ≠ 0 := ne_of_gt hn
  have key : n * (i / n) = i := by field_simp
  by_cases h : 0 ≤ i / n
  · left
    unfold jsRem ratTrunc
    rw [if_pos h, ← Int.self_sub_floor, mul_sub, key]
  · rcases Int.fract_eq_zero_or_add_one_sub_ceil (i / n) with hz | hc
    · left
      have hfl : ((⌊i / n⌋ : ℤ) : ℚ) = i / n := by
        have h2 := Int.self_sub_floor (i / n)
        rw [hz] at h2
        linarith
      have hceil : ⌈i / n⌉ = ⌊i / n⌋ := by
        conv_lhs => rw [← hfl]
        exact Int.ceil_intCast _
      unfold jsRem ratTrunc
      rw [if_neg h, hceil, ← Int.self_sub_floor, mul_sub, key]
    · right
      have hceil : ((⌈i / n⌉ : ℤ) : ℚ) = i / n + 1 - Int.fract (i / n) := by
        linarith
      unfold jsRem ratTrunc
      rw [if_neg h, hceil, mul_sub, mul_add, key]
      ring

theorem positiveModulo_eq_fract {i n : ℚ} (hn : 0 < n) :
    positiveModulo i n = n * Int.fract (i / n) := by
  have hne : n ≠ 0 := ne_of_gt hn
  have hf0 : 0 ≤ Int.fract (i / n) := Int.fract_nonneg _
  have hnf0 : 0 ≤ n * Int.fract (i / n) := mul_nonneg hn.le hf0
  unfold positiveModulo
  rcases jsRem_cases (i := i) hn with h | h <;> rw [h]
  · have hx : 0 ≤ n * Int.fract (i / n) + n := by linarith
    rw [jsRem_of_nonneg hn hx]
    have harg : (n * Int.fract (i / n) + n) / n = Int.fract (i / n) + 1 := by
      field_simp
      ring
    rw [harg, Int.fract_add_one, Int.fract_fract]
  · have heq : n * Int.fract (i / n) - n + n = n * Int.fract (i / n) := by ring
    rw [heq, jsRem_of_nonneg hn hnf0]
    have harg : n * Int.fract (i / n) / n = Int.fract (i / n) := by
      field_simp
    rw [harg, Int.fract_fract]

theorem positiveModulo_nonneg {i n : ℚ} (hn : 0 < n) :
    0 ≤ positiveModulo i n := by
  rw [positiveModulo_eq_fract hn]
  exact mul_nonneg hn.le (Int.fract_nonneg _)

theorem positiveModulo_lt {i n : ℚ} (hn : 0 < n) : positiveModulo i n < n := by
  rw [positiveModulo_eq_fract hn]
  calc n * Int.fract (i / n) < n * 1 :=
        mul_lt_mul_of_pos_left (Int.fract_lt_one _) hn
    _ = n := mul_one n

theorem positiveModulo_eq_floor {i n : ℚ} (hn : 0 < n) :
    positiveModulo i n = i - n * ⌊i / n⌋ := by
  have hne : n ≠ 0 := ne_of_gt hn
  have key : n * (i / n) = i := by field_simp
  rw [positiveModulo_eq_fract hn, ← Int.self_sub_floor, mul_sub, key]

theorem positiveModulo_add_right {i n : ℚ} (hn : 0 < n) :
    positiveModulo (i + n) n = positiveModulo i n := by
  have hne : n ≠ 0 := ne_of_gt hn
  rw [positiveModulo_eq_fract hn, positiveModulo_eq_fract hn]
  have harg : (i + n) / n = i / n + 1 := by field_simp
  rw [harg, Int.fract_add_one]

theorem positiveModulo_self_eq {i n : ℚ} (hn : 0 < n) (h0 : 0 ≤ i)
    (h1 : i < n) : positiveModulo i n = i := by
  have hne : n ≠ 0 := ne_of_gt hn
  have harg : Int.fract (i / n) = i / n :=
    Int.fract_eq_self.mpr ⟨div_nonneg h0 hn.le, by rw [div_lt_one hn]; exact h1⟩
  rw [positiveModulo_eq_fract hn, harg]
  field_simp

theorem positiveModulo_idem {i n : ℚ} (hn : 0 < n) :
    positiveModulo (positiveModulo i n) n = positiveModulo i n :=
  positiveModulo_self_eq hn (positiveModulo_nonneg hn) (positiveModulo_lt hn)

/-- Evaluation form of `ratTrunc` in terms of the floor only. -/
theorem ratTrunc_eq (q : ℚ) : ratTrunc q = if 0 ≤ q then ⌊q⌋ else -⌊-q⌋ := by
  unfold ratTrunc
  split_ifs
  · rfl
  · rw [Int.floor_neg, neg_neg]

/-! Helper lemmas about the collision resolver. -/

theorem collideStep_no_rec (m : JsMath) (cp : CollisionPolicy) (bm other : Block)
    (recs : List (Nat × AnimData)) (h : lookupRec recs bm.id = none) :
    collideStep m cp bm other recs = ⟨bm, other, recs, false, []⟩ := by
  rcases h2 : lookupRec recs other.id with _ | a
  · simp only [collideStep, h, h2]
    split_ifs <;> rfl
  · simp only [collideStep, h, h2]
    split_ifs <;> rfl

theorem collideStep_stop_cases (m : JsMath) (bm other : Block)
    (recs : List (Nat × AnimData)) :
    collideStep m CollisionPolicy.stop bm other recs = ⟨bm, other, recs, false, []⟩ ∨
      ((collideStep m CollisionPolicy.stop bm other recs).bm.id = bm.id ∧
        lookupRec (collideStep m CollisionPolicy.stop bm other recs).recs bm.id
          = none) := by
  by_cases h1 : bm.id = other.id
  · left
    simp only [collideStep]
    rw [if_pos h1]
  by_cases h2 : bm.shape = Shape.circle ∧ other.shape = Shape.circle
  swap
  · left
    simp only [collideStep]
    rw [if_neg h1, if_neg h2]
  by_cases h3 : m.sqrt ((other.x - bm.x) * (other.x - bm.x) +
      (other.y - bm.y) * (other.y - bm.y)) < bm.radiusX + other.radiusX
  swap
  · left
    simp only [collideStep]
    rw [if_neg h1, if_pos h2, if_neg h3]
  rcases h4 : lookupRec recs bm.id with _ | a1
  · left
    exact collideStep_no_rec m _ bm other recs h4
  rcases h5 : lookupRec recs other.id with _ | a2
  · left
    simp only [collideStep, h4, h5]
    split_ifs
    rfl
  right
  simp only [collideStep]
  rw [if_neg h1, if_pos h2, if_pos h3, h4, h5]
  dsimp only
  constructor
  · rfl
  · rw [lookupRec_removeRec_ne _ h1]
    exact lookupRec_removeRec _ _

theorem collideLoop_no_rec (m : JsMath) (cp : CollisionPolicy) :
    ∀ (roster : List Block) (bm : Block) (recs : List (Nat × AnimData)),
      lookupRec recs bm.id = none →
      collideLoop m cp bm roster recs = ⟨bm, roster, recs, [], []⟩
  | [], _, _, _ => rfl
  | o :: rest, bm, recs, h => by
    have hs := collideStep_no_rec m cp bm o recs h
    have ih := collideLoop_no_rec m cp rest bm recs h
    simp [collideLoop, hs, ih]

theorem collideLoop_stop_le_one (m : JsMath) :
    ∀ (roster : List Block) (bm : Block) (recs : List (Nat × AnimData)),
      (collideLoop m CollisionPolicy.stop bm roster recs).resolvedIds.length ≤ 1
  | [], _, _ => by simp [collideLoop]
  | o :: rest, bm, recs => by
    rcases collideStep_stop_cases m bm o recs with h | ⟨hid, hnone⟩
    · have ih := collideLoop_stop_le_one m rest bm recs
      simp only [collideLoop, h]
      simpa using ih
    · have hno : lookupRec (collideStep m CollisionPolicy.stop bm o recs).recs
          (collideStep m CollisionPolicy.stop bm o recs).bm.id = none := by
        rw [hid]
        exact hnone
      have hl := collideLoop_no_rec m CollisionPolicy.stop rest
        (collideStep m CollisionPolicy.stop bm o recs).bm
        (collideStep m CollisionPolicy.stop bm o recs).recs hno
      simp only [collideLoop, hl]
      split_ifs <;> simp

theorem animate_stop_le_one (m : JsMath) (bp : BoundaryPolicy)
    (c : ClosureState) (blk : Block) (roster : List Block)
    (recs : List (Nat × AnimData)) (dt : ℚ) :
    (animate m bp CollisionPolicy.stop c blk roster recs dt).resolvedIds.length
      ≤ 1 := by
  have hne : CollisionPolicy.stop ≠ CollisionPolicy.pass := by decide
  simp only [animate]
  rw [if_pos hne]
  split
  · split <;> (dsimp only; exact collideLoop_stop_le_one m roster _ _)
  · split <;> (dsimp only; exact collideLoop_stop_le_one m roster _ _)

/-! Helper lemmas about the closure speeds and the bounce boundary. -/

theorem animate_closure (m : JsMath) (bp : BoundaryPolicy) (cp : CollisionPolicy)
    (c : ClosureState) (blk : Block) (roster : List Block)
    (recs : List (Nat × AnimData)) (dt : ℚ) :
    (animate m bp cp c blk roster recs dt).closure =
      { c with
        vx := (boundaryStep bp c.sw c.sh c.vx c.vy
            { blk with x := blk.x + c.vx * dt, y := blk.y + c.vy * dt }).vx
        vy := (boundaryStep bp c.sw c.sh c.vx c.vy
            { blk with x := blk.x + c.vx * dt, y := blk.y + c.vy * dt }).vy } := by
  simp only [animate]
  split <;> split <;> rfl

theorem boundaryStep_bounce_speed (sw sh vx vy : ℚ) (b : Block) :
    ((boundaryStep BoundaryPolicy.bounce sw sh vx vy b).vx = vx ∨
        (boundaryStep BoundaryPolicy.bounce sw sh vx vy b).vx = -vx) ∧
      ((boundaryStep BoundaryPolicy.bounce sw sh vx vy b).vy = vy ∨
        (boundaryStep BoundaryPolicy.bounce sw sh vx vy b).vy = -vy) ∧
      (boundaryStep BoundaryPolicy.bounce sw sh vx vy b).stop = false := by
  rcases b with ⟨bid, shape, bx, by0, bsize, bsx, bsy⟩
  cases shape <;> (simp only [boundaryStep]; split_ifs <;> simp)

theorem boundaryStep_bounce_speed_sq (sw sh vx vy : ℚ) (b : Block) :
    (boundaryStep BoundaryPolicy.bounce sw sh vx vy b).vx ^ 2 +
        (boundaryStep BoundaryPolicy.bounce sw sh vx vy b).vy ^ 2 =
      vx ^ 2 + vy ^ 2 := by
  obtain ⟨h1 | h1, h2 | h2, -⟩ := boundaryStep_bounce_speed sw sh vx vy b <;>
    rw [h1, h2] <;> ring

theorem stepRun_bounce_speed_sq (m : JsMath) (dt : ℚ) (s : RunState) :
    (stepRun m BoundaryPolicy.bounce CollisionPolicy.pass dt s).closure.vx ^ 2 +
        (stepRun m BoundaryPolicy.bounce CollisionPolicy.pass dt s).closure.vy ^ 2 =
      s.closure.vx ^ 2 + s.closure.vy ^ 2 := by
  simp only [stepRun]
  split_ifs with h
  · rw [animate_closure]
    exact boundaryStep_bounce_speed_sq _ _ _ _ _
  · rfl

theorem runTicks_bounce_speed_sq (m : JsMath) (dt : ℚ) :
    ∀ (n : Nat) (s : RunState),
      (runTicks m BoundaryPolicy.bounce CollisionPolicy.pass dt n s).closure.vx ^ 2 +
          (runTicks m BoundaryPolicy.bounce CollisionPolicy.pass dt n s).closure.vy ^ 2 =
        s.closure.vx ^ 2 + s.closure.vy ^ 2
  | 0, _ => rfl
  | n + 1, s => by
    have ih := runTicks_bounce_speed_sq m dt n
      (stepRun m BoundaryPolicy.bounce CollisionPolicy.pass dt s)
    have hs := stepRun_bounce_speed_sq m dt s
    simp only [runTicks]
    exact ih.trans hs

/-- Exact square roots of perfect squares, used to discharge the pointwise
square-root hypotheses at concrete inputs. -/
theorem ratSqrt_of_sq {q r : ℚ} (h0 : 0 ≤ r) (h : r * r = q) :
    Rat.sqrt q = r := by
  rw [← h, Rat.sqrt_eq, abs_of_nonneg h0]

/-- C10: a Block constructed with `options.size = 0` falls back to the
default size 50 (the constructor replaces falsy numeric options by their
defaults), and more generally the constructor can never produce size 0;
by contrast `resize(0)` is accepted and sets the size to 0, so a zero size
is reachable only through `resize`. -/
theorem c10_size_zero_only_via_resize :
    (∀ (o : BlockOptions) (freshId : Nat), (Block.construct o freshId).size ≠ 0) ∧
      (∀ (o : BlockOptions) (freshId : Nat), o.size = some 0 →
        (Block.construct o freshId).size = 50) ∧
      (∀ b : Block, (b.resize (some 0)).size = 0) := by
  refine ⟨?_, ?_, ?_⟩
  · intro o freshId
    rcases ho : o.size with _ | v
    · simp [Block.construct, jsOrNum, ho]
    · by_cases hv : v = 0
      · simp [Block.construct, jsOrNum, ho, hv]
      · simp [Block.construct, jsOrNum, ho, hv]
  · intro o freshId h
    simp [Block.construct, jsOrNum, h]
  · intro b
    simp [Block.resize]

/-- Witness for C10 at concrete inputs. -/
theorem c10_size_zero_only_via_resize_witness :
    (Block.construct ⟨none, some "circle", none, none, some 0, none, none⟩ 3).size
        = 50 ∧
      ((⟨1, Shape.circle, 0, 0, 25, 0, 0⟩ : Block).resize (some 0)).size = 0 :=
  ⟨c10_size_zero_only_via_resize.2.1 _ 3 rfl,
    c10_size_zero_only_via_resize.2.2 _⟩

/-- C9: `moveBlock` fails silently on invalid arguments: if the owning
component does not provide `updateBlockVisuals`, or the block is not a
`Block` instance, or angle or pps is not numeric, the call logs a
diagnostic and returns with the record map and the roster untouched,
scheduling neither a tick nor a timeout. -/
theorem c9_moveBlock_invalid_silent (m : JsMath) (blockArg : Option Block)
    (angle pps : JsNum) (hasUBV : Bool) (duration : ℚ)
    (roster : List Block) (recs : List (Nat × AnimData))
    (h : hasUBV = false ∨ blockArg = none ∨ angle = JsNum.notNum ∨
      pps = JsNum.notNum) :
    moveBlock m blockArg angle pps hasUBV duration roster recs =
      ⟨recs, roster, true, false, false⟩ := by
  rcases hb : blockArg with _ | blk
  all_goals rcases ha : angle with aq | _
  all_goals rcases hp : pps with pq | _
  all_goals cases hu : hasUBV
  all_goals simp_all [moveBlock]

/-- Witness for C9: a call with a valid component and numbers but no Block
instance logs and changes nothing. -/
theorem c9_moveBlock_invalid_silent_witness :
    moveBlock testMath none (JsNum.num 45) (JsNum.num 100) true 0 []
        [(0, ⟨1, 2, 3⟩)] =
      ⟨[(0, ⟨1, 2, 3⟩)], [], true, false, false⟩ :=
  c9_moveBlock_invalid_silent testMath none (JsNum.num 45) (JsNum.num 100)
    true 0 [] [(0, ⟨1, 2, 3⟩)] (Or.inr (Or.inl rfl))

/-- Wrapping one axis of the pass policy is idempotent. -/
theorem wrapAxis_idem {n : ℚ} (hn : 0 < n) (t e : ℚ) :
    positiveModulo (positiveModulo (t + e) n - e + e) n - e =
      positiveModulo (t + e) n - e := by
  rw [sub_add_cancel, positiveModulo_idem hn]

/-- Wrapping one axis of the pass policy absorbs a full world-width shift. -/
theorem wrapAxis_shift {n : ℚ} (hn : 0 < n) (t e : ℚ) :
    positiveModulo (t + n + e) n = positiveModulo (t + e) n := by
  rw [show t + n + e = t + e + n from by ring, positiveModulo_add_right hn]

/-- Evaluation lemmas for the derived geometry on explicit blocks. -/
theorem actualWidth_square (bid : Nat) (bx by0 bsz bsx bsy : ℚ) :
    (Block.mk bid Shape.square bx by0 bsz bsx bsy).actualWidth =
      bsz * (1 + bsx / 100) := by
  simp [Block.actualWidth]

theorem actualWidth_circle (bid : Nat) (bx by0 bsz bsx bsy : ℚ) :
    (Block.mk bid Shape.circle bx by0 bsz bsx bsy).actualWidth =
      2 * bsz * (1 + bsx / 100) := by
  simp [Block.actualWidth]

theorem actualHeight_square (bid : Nat) (bx by0 bsz bsx bsy : ℚ) :
    (Block.mk bid Shape.square bx by0 bsz bsx bsy).actualHeight =
      bsz * (1 + bsy / 100) := by
  simp [Block.actualHeight]

theorem actualHeight_circle (bid : Nat) (bx by0 bsz bsx bsy : ℚ) :
    (Block.mk bid Shape.circle bx by0 bsz bsx bsy).actualHeight =
      2 * bsz * (1 + bsy / 100) := by
  simp [Block.actualHeight]

theorem radiusX_square (bid : Nat) (bx by0 bsz bsx bsy : ℚ) :
    (Block.mk bid Shape.square bx by0 bsz bsx bsy).radiusX = 0 := by
  simp [Block.radiusX]

theorem radiusX_circle (bid : Nat) (bx by0 bsz bsx bsy : ℚ) :
    (Block.mk bid Shape.circle bx by0 bsz bsx bsy).radiusX =
      bsz * (1 + bsx / 100) := by
  simp [Block.radiusX]

theorem radiusY_square (bid : Nat) (bx by0 bsz bsx bsy : ℚ) :
    (Block.mk bid Shape.square bx by0 bsz bsx bsy).radiusY = 0 := by
  simp [Block.radiusY]

theorem radiusY_circle (bid : Nat) (bx by0 bsz bsx bsy : ℚ) :
    (Block.mk bid Shape.circle bx by0 bsz bsx bsy).radiusY =
      bsz * (1 + bsy / 100) := by
  simp [Block.radiusY]

/-- C8: the pass-policy wraparound uses a true non-negative mathematical
modulo (equal to the floor-based modulo, non-negative and below the world
width even for negative positions, unlike the raw language remainder), and
the boundary pass correction is idempotent and invariant under shifting a
position by a full world width. -/
theorem c8_pass_true_modulo :
    (∀ i n : ℚ, 0 < n →
      positiveModulo i n = i - n * ⌊i / n⌋ ∧
        0 ≤ positiveModulo i n ∧ positiveModulo i n < n ∧
        positiveModulo (positiveModulo i n) n = positiveModulo i n ∧
        positiveModulo (i + n) n = positiveModulo i n) ∧
      (jsRem (-30) 100 = -30 ∧ positiveModulo (-30) 100 = 70) ∧
      (∀ (sw sh vx vy : ℚ) (b : Block),
        0 < sw + b.actualWidth → 0 < sh + b.actualHeight →
        boundaryStep BoundaryPolicy.pass sw sh vx vy
            ((boundaryStep BoundaryPolicy.pass sw sh vx vy b).blk) =
          boundaryStep BoundaryPolicy.pass sw sh vx vy b ∧
        boundaryStep BoundaryPolicy.pass sw sh vx vy
            { b with x := b.x + (sw + b.actualWidth),
                     y := b.y + (sh + b.actualHeight) } =
          boundaryStep BoundaryPolicy.pass sw sh vx vy b) := by
  refine ⟨?_, ⟨?_, ?_⟩, ?_⟩
  · intro i n hn
    exact ⟨positiveModulo_eq_floor hn, positiveModulo_nonneg hn,
      positiveModulo_lt hn, positiveModulo_idem hn, positiveModulo_add_right hn⟩
  · norm_num [jsRem, ratTrunc_eq]
  · norm_num [positiveModulo, jsRem, ratTrunc_eq]
  · intro sw sh vx vy b hw hh
    rcases b with ⟨bid, shp, bx, by0, bsz, bsx, bsy⟩
    cases shp
    case square =>
      simp only [actualWidth_square, actualHeight_square] at hw hh
      simp only [boundaryStep, actualWidth_square, actualHeight_square]
      constructor
      · have hx := wrapAxis_idem hw bx (bsz * (1 + bsx / 100))
        have hy := wrapAxis_idem hh by0 (bsz * (1 + bsy / 100))
        simp only [hx, hy]
      · have hx : positiveModulo
            (bx + (sw + bsz * (1 + bsx / 100)) + bsz * (1 + bsx / 100))
            (sw + bsz * (1 + bsx / 100)) =
            positiveModulo (bx + bsz * (1 + bsx / 100))
              (sw + bsz * (1 + bsx / 100)) := by
          rw [show bx + (sw + bsz * (1 + bsx / 100)) + bsz * (1 + bsx / 100) =
              bx + bsz * (1 + bsx / 100) + (sw + bsz * (1 + bsx / 100)) from by
              ring, positiveModulo_add_right hw]
        have hy : positiveModulo
            (by0 + (sh + bsz * (1 + bsy / 100)) + bsz * (1 + bsy / 100))
            (sh + bsz * (1 + bsy / 100)) =
            positiveModulo (by0 + bsz * (1 + bsy / 100))
              (sh + bsz * (1 + bsy / 100)) := by
          rw [show by0 + (sh + bsz * (1 + bsy / 100)) + bsz * (1 + bsy / 100) =
              by0 + bsz * (1 + bsy / 100) + (sh + bsz * (1 + bsy / 100)) from by
              ring, positiveModulo_add_right hh]
        simp only [hx, hy]
    case circle =>
      simp only [actualWidth_circle, actualHeight_circle] at hw hh
      have hw2 : 0 < sw + 2 * (bsz * (1 + bsx / 100)) := by
        rw [show sw + 2 * (bsz * (1 + bsx / 100)) =
            sw + 2 * bsz * (1 + bsx / 100) from by ring]
        exact hw
      have hh2 : 0 < sh + 2 * (bsz * (1 + bsy / 100)) := by
        rw [show sh + 2 * (bsz * (1 + bsy / 100)) =
            sh + 2 * bsz * (1 + bsy / 100) from by ring]
        exact hh
      simp only [boundaryStep, radiusX_circle, radiusY_circle, actualWidth_circle,
        actualHeight_circle]
      constructor
      · have hx := wrapAxis_idem hw2 bx (bsz * (1 + bsx / 100))
        have hy := wrapAxis_idem hh2 by0 (bsz * (1 + bsy / 100))
        simp only [hx, hy]
      · have hx : positiveModulo
            (bx + (sw + 2 * bsz * (1 + bsx / 100)) + bsz * (1 + bsx / 100))
            (sw + 2 * (bsz * (1 + bsx / 100))) =
            positiveModulo (bx + bsz * (1 + bsx / 100))
              (sw + 2 * (bsz * (1 + bsx / 100))) := by
          rw [show bx + (sw + 2 * bsz * (1 + bsx / 100)) + bsz * (1 + bsx / 100) =
              bx + bsz * (1 + bsx / 100) + (sw + 2 * (bsz * (1 + bsx / 100)))
              from by ring, positiveModulo_add_right hw2]
        have hy : positiveModulo
            (by0 + (sh + 2 * bsz * (1 + bsy / 100)) + bsz * (1 + bsy / 100))
            (sh + 2 * (bsz * (1 + bsy / 100))) =
            positiveModulo (by0 + bsz * (1 + bsy / 100))
              (sh + 2 * (bsz * (1 + bsy / 100))) := by
          rw [show by0 + (sh + 2 * bsz * (1 + bsy / 100)) + bsz * (1 + bsy / 100) =
              by0 + bsz * (1 + bsy / 100) + (sh + 2 * (bsz * (1 + bsy / 100)))
              from by ring, positiveModulo_add_right hh2]
        simp only [hx, hy]

/-- Witness for C8 at a concrete input: wrapping -30 into world width 100
gives 70, the floor-based modulo, while the raw remainder would give -30. -/
theorem c8_pass_true_modulo_witness :
    positiveModulo (-30) 100 = -30 - 100 * ⌊(-30 : ℚ) / 100⌋ ∧
      0 ≤ positiveModulo (-30 : ℚ) 100 ∧
      positiveModulo (positiveModulo (-30 : ℚ) 100) 100 =
        positiveModulo (-30 : ℚ) 100 :=
  ⟨(c8_pass_true_modulo.1 (-30) 100 (by norm_num)).1,
    (c8_pass_true_modulo.1 (-30) 100 (by norm_num)).2.1,
    (c8_pass_true_modulo.1 (-30) 100 (by norm_num)).2.2.2.1⟩

/-- C7: a boundary bounce only flips the sign of the reflected velocity
component and clamps the position to the edge (each coordinate is left
unchanged or clamped to one of the edge positions), never signals a stop,
and therefore preserves the speed magnitude exactly, both for a single
boundary resolution and across any number of ticks under the bounce
boundary policy. -/
theorem c7_bounce_preserves_speed :
    (∀ (sw sh vx vy : ℚ) (b : Block),
      ((boundaryStep BoundaryPolicy.bounce sw sh vx vy b).vx = vx ∨
        (boundaryStep BoundaryPolicy.bounce sw sh vx vy b).vx = -vx) ∧
      ((boundaryStep BoundaryPolicy.bounce sw sh vx vy b).vy = vy ∨
        (boundaryStep BoundaryPolicy.bounce sw sh vx vy b).vy = -vy) ∧
      ((boundaryStep BoundaryPolicy.bounce sw sh vx vy b).blk.x = b.x ∨
        (boundaryStep BoundaryPolicy.bounce sw sh vx vy b).blk.x = b.radiusX ∨
        (boundaryStep BoundaryPolicy.bounce sw sh vx vy b).blk.x = sw - b.radiusX ∨
        (boundaryStep BoundaryPolicy.bounce sw sh vx vy b).blk.x = 0 ∨
        (boundaryStep BoundaryPolicy.bounce sw sh vx vy b).blk.x =
          sw - b.actualWidth) ∧
      ((boundaryStep BoundaryPolicy.bounce sw sh vx vy b).blk.y = b.y ∨
        (boundaryStep BoundaryPolicy.bounce sw sh vx vy b).blk.y = b.radiusY ∨
        (boundaryStep BoundaryPolicy.bounce sw sh vx vy b).blk.y = sh - b.radiusY ∨
        (boundaryStep BoundaryPolicy.bounce sw sh vx vy b).blk.y = 0 ∨
        (boundaryStep BoundaryPolicy.bounce sw sh vx vy b).blk.y =
          sh - b.actualHeight) ∧
      (boundaryStep BoundaryPolicy.bounce sw sh vx vy b).stop = false ∧
      Real.sqrt (((boundaryStep BoundaryPolicy.bounce sw sh vx vy b).vx : ℝ) ^ 2 +
          ((boundaryStep BoundaryPolicy.bounce sw sh vx vy b).vy : ℝ) ^ 2) =
        Real.sqrt ((vx : ℝ) ^ 2 + (vy : ℝ) ^ 2)) ∧
    (∀ (m : JsMath) (dt : ℚ) (n : Nat) (s : RunState),
      Real.sqrt
          (((runTicks m BoundaryPolicy.bounce CollisionPolicy.pass dt n s).closure.vx :
              ℝ) ^ 2 +
            ((runTicks m BoundaryPolicy.bounce CollisionPolicy.pass dt n s).closure.vy :
              ℝ) ^ 2) =
        Real.sqrt ((s.closure.vx : ℝ) ^ 2 + (s.closure.vy : ℝ) ^ 2)) := by
  constructor
  · intro sw sh vx vy b
    obtain ⟨hx, hy, hstop⟩ := boundaryStep_bounce_speed sw sh vx vy b
    have hsq := boundaryStep_bounce_speed_sq sw sh vx vy b
    have hcast : ((boundaryStep BoundaryPolicy.bounce sw sh vx vy b).vx : ℝ) ^ 2 +
        ((boundaryStep BoundaryPolicy.bounce sw sh vx vy b).vy : ℝ) ^ 2 =
        (vx : ℝ) ^ 2 + (vy : ℝ) ^ 2 := by exact_mod_cast hsq
    refine ⟨hx, hy, ?_, ?_, hstop, congrArg Real.sqrt hcast⟩
    · rcases b with ⟨bid, shp, bx, by0, bsz, bsx, bsy⟩
      cases shp <;>
        (simp only [boundaryStep, radiusX_circle, radiusX_square,
          actualWidth_circle, actualWidth_square];
          split_ifs <;> simp)
    · rcases b with ⟨bid, shp, bx, by0, bsz, bsx, bsy⟩
      cases shp <;>
        (simp only [boundaryStep, radiusY_circle, radiusY_square,
          actualHeight_circle, actualHeight_square];
          split_ifs <;> simp)
  · intro m dt n s
    have hsq := runTicks_bounce_speed_sq m dt n s
    have hcast :
        ((runTicks m BoundaryPolicy.bounce CollisionPolicy.pass dt n s).closure.vx :
            ℝ) ^ 2 +
          ((runTicks m BoundaryPolicy.bounce CollisionPolicy.pass dt n s).closure.vy :
            ℝ) ^ 2 =
          (s.closure.vx : ℝ) ^ 2 + (s.closure.vy : ℝ) ^ 2 := by exact_mod_cast hsq
    exact congrArg Real.sqrt hcast

/-- C5: under boundary policy `front`, an axis is tested only when the
velocity component on that axis points at an edge (zero velocity never
triggers a stop and never moves the block; a rightward-moving circle clear
of the right edge is untouched even when it overlaps the left edge); on
contact the position is clamped so the leading edge sits exactly on the
viewport edge and the tick is terminal; and in the concrete scenario, a
circle of radius 25 starting at the origin with velocity (100, 0) in a
viewport of width 200 ends after two one-second ticks with x = 175 and its
motion terminated. -/
theorem c5_front_leading_edge_stop :
    (∀ (sw sh : ℚ) (b : Block),
      boundaryStep BoundaryPolicy.front sw sh 0 0 b = ⟨b, 0, 0, false, false⟩) ∧
    (∀ (sw sh vx : ℚ) (b : Block), b.shape = Shape.circle → 0 < vx →
      b.x + b.radiusX < sw →
      (boundaryStep BoundaryPolicy.front sw sh vx 0 b).blk.x = b.x ∧
        (boundaryStep BoundaryPolicy.front sw sh vx 0 b).stop = false) ∧
    (∀ (sw sh vx : ℚ) (b : Block), b.shape = Shape.circle → 0 < vx →
      sw ≤ b.x + b.radiusX →
      (boundaryStep BoundaryPolicy.front sw sh vx 0 b).blk.x + b.radiusX = sw ∧
        (boundaryStep BoundaryPolicy.front sw sh vx 0 b).stop = true) ∧
    ((runTicks testMath BoundaryPolicy.front CollisionPolicy.pass 1 2
        ⟨⟨100, 0, 200, 200⟩, ⟨0, Shape.circle, 0, 0, 25, 0, 0⟩, [],
          [(0, ⟨100, 0, 0⟩)], TickOutcome.rescheduled⟩).blk.x = 175 ∧
      (runTicks testMath BoundaryPolicy.front CollisionPolicy.pass 1 2
        ⟨⟨100, 0, 200, 200⟩, ⟨0, Shape.circle, 0, 0, 25, 0, 0⟩, [],
          [(0, ⟨100, 0, 0⟩)], TickOutcome.rescheduled⟩).outcome =
        TickOutcome.terminal) := by
  refine ⟨?_, ?_, ?_, ?_⟩
  · intro sw sh b
    rcases b with ⟨bid, shp, bx, by0, bsz, bsx, bsy⟩
    cases shp <;> simp [boundaryStep]
  · intro sw sh vx b hs hvx hlt
    rcases b with ⟨bid, shp, bx, by0, bsz, bsx, bsy⟩
    dsimp only at hs
    subst hs
    simp only [radiusX_circle] at hlt
    have h1 : ¬(vx > 0 ∧ bx + bsz * (1 + bsx / 100) ≥ sw) :=
      fun h => absurd h.2 (not_le.mpr hlt)
    have h2 : ¬(vx < 0 ∧ bx - bsz * (1 + bsx / 100) ≤ 0) :=
      fun h => absurd h.1 (asymm hvx)
    have h3 : ¬((0 : ℚ) > 0 ∧ by0 + bsz * (1 + bsy / 100) ≥ sh) := by simp
    have h4 : ¬((0 : ℚ) < 0 ∧ by0 - bsz * (1 + bsy / 100) ≤ 0) := by simp
    simp only [boundaryStep, radiusX_circle, radiusY_circle, if_neg h1,
      if_neg h2, if_neg h3, if_neg h4]
    exact ⟨trivial, rfl⟩
  · intro sw sh vx b hs hvx hge
    rcases b with ⟨bid, shp, bx, by0, bsz, bsx, bsy⟩
    dsimp only at hs
    subst hs
    simp only [radiusX_circle] at hge
    have h3 : ¬((0 : ℚ) > 0 ∧ by0 + bsz * (1 + bsy / 100) ≥ sh) := by simp
    have h4 : ¬((0 : ℚ) < 0 ∧ by0 - bsz * (1 + bsy / 100) ≤ 0) := by simp
    simp only [boundaryStep, radiusX_circle, radiusY_circle,
      if_pos (And.intro hvx hge), if_neg h3, if_neg h4]
    exact ⟨sub_add_cancel sw (bsz * (1 + bsx / 100)), rfl⟩
  · have h1 : stepRun testMath BoundaryPolicy.front CollisionPolicy.pass 1
        ⟨⟨100, 0, 200, 200⟩, ⟨0, Shape.circle, 0, 0, 25, 0, 0⟩, [],
          [(0, ⟨100, 0, 0⟩)], TickOutcome.rescheduled⟩ =
        ⟨⟨100, 0, 200, 200⟩, ⟨0, Shape.circle, 100, 0, 25, 0, 0⟩, [],
          [(0, ⟨100, 0, 0⟩)], TickOutcome.rescheduled⟩ := by
      norm_num [stepRun, animate, boundaryStep, radiusX_circle, radiusY_circle,
        lookupRec, List.find?, testMath]
    have h2 : stepRun testMath BoundaryPolicy.front CollisionPolicy.pass 1
        ⟨⟨100, 0, 200, 200⟩, ⟨0, Shape.circle, 100, 0, 25, 0, 0⟩, [],
          [(0, ⟨100, 0, 0⟩)], TickOutcome.rescheduled⟩ =
        ⟨⟨100, 0, 200, 200⟩, ⟨0, Shape.circle, 175, 0, 25, 0, 0⟩, [], [],
          TickOutcome.terminal⟩ := by
      norm_num [stepRun, animate, boundaryStep, radiusX_circle, radiusY_circle,
        lookupRec, removeRec, List.find?, List.filter, testMath]
    have hrun : runTicks testMath BoundaryPolicy.front CollisionPolicy.pass 1 2
        ⟨⟨100, 0, 200, 200⟩, ⟨0, Shape.circle, 0, 0, 25, 0, 0⟩, [],
          [(0, ⟨100, 0, 0⟩)], TickOutcome.rescheduled⟩ =
        ⟨⟨100, 0, 200, 200⟩, ⟨0, Shape.circle, 175, 0, 25, 0, 0⟩, [], [],
          TickOutcome.terminal⟩ := by
      show runTicks testMath BoundaryPolicy.front CollisionPolicy.pass 1
          (1 + 1) _ = _
      rw [show (1 + 1 : Nat) = 1 + 1 from rfl]
      simp only [runTicks]
      rw [h1, h2]
    rw [hrun]
    exact ⟨rfl, rfl⟩

/-- Witness for C5: the general front-policy clauses applied at a concrete
circle touching the right edge. -/
theorem c5_front_leading_edge_stop_witness :
    ((boundaryStep BoundaryPolicy.front 200 200 100 0
        ⟨0, Shape.circle, 190, 50, 25, 0, 0⟩).blk.x +
          (⟨0, Shape.circle, 190, 50, 25, 0, 0⟩ : Block).radiusX = 200 ∧
      (boundaryStep BoundaryPolicy.front 200 200 100 0
        ⟨0, Shape.circle, 190, 50, 25, 0, 0⟩).stop = true) ∧
    ((boundaryStep BoundaryPolicy.front 200 200 100 0
        ⟨0, Shape.circle, 10, 50, 25, 0, 0⟩).blk.x = 10 ∧
      (boundaryStep BoundaryPolicy.front 200 200 100 0
        ⟨0, Shape.circle, 10, 50, 25, 0, 0⟩).stop = false) :=
  ⟨c5_front_leading_edge_stop.2.2.1 200 200 100 _ rfl (by norm_num)
      (by norm_num [radiusX_circle]),
    c5_front_leading_edge_stop.2.1 200 200 100 _ rfl (by norm_num)
      (by norm_num [radiusX_circle])⟩

/-- Reduction of the stop branch of the collision resolver under the
overlap and record hypotheses. -/
theorem collideStep_stop_red (m : JsMath) (bm other : Block)
    (recs : List (Nat × AnimData)) (a1 a2 : AnimData) (d : ℚ)
    (hid : bm.id ≠ other.id)
    (hbs : bm.shape = Shape.circle) (hos : other.shape = Shape.circle)
    (ha1 : lookupRec recs bm.id = some a1)
    (ha2 : lookupRec recs other.id = some a2)
    (hd : m.sqrt ((other.x - bm.x) * (other.x - bm.x) +
      (other.y - bm.y) * (other.y - bm.y)) = d)
    (hlt : d < bm.radiusX + other.radiusX) :
    collideStep m CollisionPolicy.stop bm other recs =
      ⟨{ bm with
          x := bm.x - (bm.radiusX + other.radiusX - d) * ((other.x - bm.x) / d) *
            (1 / 2),
          y := bm.y - (bm.radiusX + other.radiusX - d) * ((other.y - bm.y) / d) *
            (1 / 2) },
        { other with
          x := other.x + (bm.radiusX + other.radiusX - d) * ((other.x - bm.x) / d) *
            (1 / 2),
          y := other.y + (bm.radiusX + other.radiusX - d) * ((other.y - bm.y) / d) *
            (1 / 2) },
        removeRec (removeRec
          (setRec (setRec recs bm.id
            { a1 with currentSpeedX := 0, currentSpeedY := 0 }) other.id
            { a2 with currentSpeedX := 0, currentSpeedY := 0 }) bm.id) other.id,
        true,
        [(bm.id, bm.x - (bm.radiusX + other.radiusX - d) * ((other.x - bm.x) / d) *
            (1 / 2),
          bm.y - (bm.radiusX + other.radiusX - d) * ((other.y - bm.y) / d) *
            (1 / 2)),
          (other.id, other.x + (bm.radiusX + other.radiusX - d) *
            ((other.x - bm.x) / d) * (1 / 2),
            other.y + (bm.radiusX + other.radiusX - d) * ((other.y - bm.y) / d) *
              (1 / 2))]⟩ := by
  simp only [collideStep, hd]
  rw [if_neg hid, if_pos (And.intro hbs hos), if_pos hlt, ha1, ha2]

/-- C6: under collision policy stop, an overlapping circle pair with both
records active is resolved by removing both AnimationRecords (the source
zeroes the record speeds and then deletes both records, so neither body
ticks again), pushing the two centers apart along the center-to-center
normal by half the penetration depth each (the midpoint is preserved, each
displacement has squared length a quarter of the squared penetration and
lies along the normal) so that the pair ends exactly tangent in exact
arithmetic; and re-resolving the separated pair produces no further
change. -/
theorem c6_collision_stop_tangent_idempotent (m : JsMath) (bm other : Block)
    (recs : List (Nat × AnimData)) (a1 a2 : AnimData) (d : ℚ)
    (hid : bm.id ≠ other.id)
    (hbs : bm.shape = Shape.circle) (hos : other.shape = Shape.circle)
    (ha1 : lookupRec recs bm.id = some a1)
    (ha2 : lookupRec recs other.id = some a2)
    (hd : m.sqrt ((other.x - bm.x) * (other.x - bm.x) +
      (other.y - bm.y) * (other.y - bm.y)) = d)
    (hdsq : d * d = (other.x - bm.x) * (other.x - bm.x) +
      (other.y - bm.y) * (other.y - bm.y))
    (hdpos : 0 < d)
    (hlt : d < bm.radiusX + other.radiusX)
    (hsq2 : ∀ q : ℚ, q = (bm.radiusX + other.radiusX) *
      (bm.radiusX + other.radiusX) → bm.radiusX + other.radiusX ≤ m.sqrt q) :
    (collideStep m CollisionPolicy.stop bm other recs).resolved = true ∧
      lookupRec (collideStep m CollisionPolicy.stop bm other recs).recs bm.id
        = none ∧
      lookupRec (collideStep m CollisionPolicy.stop bm other recs).recs other.id
        = none ∧
      ((collideStep m CollisionPolicy.stop bm other recs).other.x -
            (collideStep m CollisionPolicy.stop bm other recs).bm.x) *
          ((collideStep m CollisionPolicy.stop bm other recs).other.x -
            (collideStep m CollisionPolicy.stop bm other recs).bm.x) +
        ((collideStep m CollisionPolicy.stop bm other recs).other.y -
            (collideStep m CollisionPolicy.stop bm other recs).bm.y) *
          ((collideStep m CollisionPolicy.stop bm other recs).other.y -
            (collideStep m CollisionPolicy.stop bm other recs).bm.y) =
        (bm.radiusX + other.radiusX) * (bm.radiusX + other.radiusX) ∧
      (collideStep m CollisionPolicy.stop bm other recs).bm.x +
          (collideStep m CollisionPolicy.stop bm other recs).other.x =
        bm.x + other.x ∧
      (collideStep m CollisionPolicy.stop bm other recs).bm.y +
          (collideStep m CollisionPolicy.stop bm other recs).other.y =
        bm.y + other.y ∧
      ((collideStep m CollisionPolicy.stop bm other recs).bm.x - bm.x) *
            ((collideStep m CollisionPolicy.stop bm other recs).bm.x - bm.x) +
          ((collideStep m CollisionPolicy.stop bm other recs).bm.y - bm.y) *
            ((collideStep m CollisionPolicy.stop bm other recs).bm.y - bm.y) =
        (bm.radiusX + other.radiusX - d) * (bm.radiusX + other.radiusX - d) *
          (1 / 4) ∧
      ((collideStep m CollisionPolicy.stop bm other recs).bm.x - bm.x) *
          (other.y - bm.y) =
        ((collideStep m CollisionPolicy.stop bm other recs).bm.y - bm.y) *
          (other.x - bm.x) ∧
      collideStep m CollisionPolicy.stop
          (collideStep m CollisionPolicy.stop bm other recs).bm
          (collideStep m CollisionPolicy.stop bm other recs).other
          (collideStep m CollisionPolicy.stop bm other recs).recs =
        ⟨(collideStep m CollisionPolicy.stop bm other recs).bm,
          (collideStep m CollisionPolicy.stop bm other recs).other,
          (collideStep m CollisionPolicy.stop bm other recs).recs, false, []⟩ := by
  have hdne : d ≠ 0 := ne_of_gt hdpos
  have hred := collideStep_stop_red m bm other recs a1 a2 d hid hbs hos ha1 ha2
    hd hlt
  rw [hred]
  dsimp only
  have hdx : other.x + (bm.radiusX + other.radiusX - d) * ((other.x - bm.x) / d) *
        (1 / 2) - (bm.x - (bm.radiusX + other.radiusX - d) * ((other.x - bm.x) / d) *
        (1 / 2)) =
      (bm.radiusX + other.radiusX) / d * (other.x - bm.x) := by
    field_simp
    ring
  have hdy : other.y + (bm.radiusX + other.radiusX - d) * ((other.y - bm.y) / d) *
        (1 / 2) - (bm.y - (bm.radiusX + other.radiusX - d) * ((other.y - bm.y) / d) *
        (1 / 2)) =
      (bm.radiusX + other.radiusX) / d * (other.y - bm.y) := by
    field_simp
    ring
  have htan : (other.x + (bm.radiusX + other.radiusX - d) * ((other.x - bm.x) / d) *
        (1 / 2) - (bm.x - (bm.radiusX + other.radiusX - d) * ((other.x - bm.x) / d) *
        (1 / 2))) *
      (other.x + (bm.radiusX + other.radiusX - d) * ((other.x - bm.x) / d) *
        (1 / 2) - (bm.x - (bm.radiusX + other.radiusX - d) * ((other.x - bm.x) / d) *
        (1 / 2))) +
      (other.y + (bm.radiusX + other.radiusX - d) * ((other.y - bm.y) / d) *
        (1 / 2) - (bm.y - (bm.radiusX + other.radiusX - d) * ((other.y - bm.y) / d) *
        (1 / 2))) *
      (other.y + (bm.radiusX + other.radiusX - d) * ((other.y - bm.y) / d) *
        (1 / 2) - (bm.y - (bm.radiusX + other.radiusX - d) * ((other.y - bm.y) / d) *
        (1 / 2))) =
      (bm.radiusX + other.radiusX) * (bm.radiusX + other.radiusX) := by
    rw [hdx, hdy]
    rw [show (bm.radiusX + other.radiusX) / d * (other.x - bm.x) *
          ((bm.radiusX + other.radiusX) / d * (other.x - bm.x)) +
          (bm.radiusX + other.radiusX) / d * (other.y - bm.y) *
          ((bm.radiusX + other.radiusX) / d * (other.y - bm.y)) =
        (bm.radiusX + other.radiusX) / d * ((bm.radiusX + other.radiusX) / d) *
          ((other.x - bm.x) * (other.x - bm.x) +
            (other.y - bm.y) * (other.y - bm.y)) from by ring, ← hdsq]
    field_simp
  have hbx : bm.x - (bm.radiusX + other.radiusX - d) * ((other.x - bm.x) / d) *
        (1 / 2) - bm.x =
      -((bm.radiusX + other.radiusX - d) / d * (other.x - bm.x) * (1 / 2)) := by
    field_simp
    ring
  have hby : bm.y - (bm.radiusX + other.radiusX - d) * ((other.y - bm.y) / d) *
        (1 / 2) - bm.y =
      -((bm.radiusX + other.radiusX - d) / d * (other.y - bm.y) * (1 / 2)) := by
    field_simp
    ring
  have hpen : (bm.x - (bm.radiusX + other.radiusX - d) * ((other.x - bm.x) / d) *
        (1 / 2) - bm.x) *
      (bm.x - (bm.radiusX + other.radiusX - d) * ((other.x - bm.x) / d) *
        (1 / 2) - bm.x) +
      (bm.y - (bm.radiusX + other.radiusX - d) * ((other.y - bm.y) / d) *
        (1 / 2) - bm.y) *
      (bm.y - (bm.radiusX + other.radiusX - d) * ((other.y - bm.y) / d) *
        (1 / 2) - bm.y) =
      (bm.radiusX + other.radiusX - d) * (bm.radiusX + other.radiusX - d) *
        (1 / 4) := by
    rw [hbx, hby]
    rw [show -((bm.radiusX + other.radiusX - d) / d * (other.x - bm.x) * (1 / 2)) *
          -((bm.radiusX + other.radiusX - d) / d * (other.x - bm.x) * (1 / 2)) +
          -((bm.radiusX + other.radiusX - d) / d * (other.y - bm.y) * (1 / 2)) *
          -((bm.radiusX + other.radiusX - d) / d * (other.y - bm.y) * (1 / 2)) =
        (bm.radiusX + other.radiusX - d) / d * ((bm.radiusX + other.radiusX - d) / d) *
          (1 / 4) *
          ((other.x - bm.x) * (other.x - bm.x) +
            (other.y - bm.y) * (other.y - bm.y)) from by ring, ← hdsq]
    field_simp
    ring
  refine ⟨rfl, ?_, ?_, htan, by ring, by ring, hpen, by ring, ?_⟩
  · rw [lookupRec_removeRec_ne _ hid]
    exact lookupRec_removeRec _ _
  · exact lookupRec_removeRec _ _
  · have hge := hsq2 _ htan
    simp only [collideStep]
    rw [if_neg (show ¬({ bm with
          x := bm.x - (bm.radiusX + other.radiusX - d) * ((other.x - bm.x) / d) *
            (1 / 2),
          y := bm.y - (bm.radiusX + other.radiusX - d) * ((other.y - bm.y) / d) *
            (1 / 2) } : Block).id = ({ other with
          x := other.x + (bm.radiusX + other.radiusX - d) * ((other.x - bm.x) / d) *
            (1 / 2),
          y := other.y + (bm.radiusX + other.radiusX - d) * ((other.y - bm.y) / d) *
            (1 / 2) } : Block).id from hid)]
    rw [show (Block.mk bm.id bm.shape
        (bm.x - (bm.radiusX + other.radiusX - d) * ((other.x - bm.x) / d) * (1 / 2))
        (bm.y - (bm.radiusX + other.radiusX - d) * ((other.y - bm.y) / d) * (1 / 2))
        bm.size bm.scale_x bm.scale_y).radiusX = bm.radiusX from rfl,
      show (Block.mk other.id other.shape
        (other.x + (bm.radiusX + other.radiusX - d) * ((other.x - bm.x) / d) * (1 / 2))
        (other.y + (bm.radiusX + other.radiusX - d) * ((other.y - bm.y) / d) * (1 / 2))
        other.size other.scale_x other.scale_y).radiusX = other.radiusX from rfl]
    rw [if_pos (And.intro hbs hos), if_neg (not_lt.mpr hge)]

/-- Witness for C6: two unit-mass circles of radius 10 centered 12 apart,
both with active records, end with both records removed. -/
theorem c6_collision_stop_tangent_idempotent_witness :
    lookupRec (collideStep testMath CollisionPolicy.stop
        ⟨0, Shape.circle, 0, 0, 10, 0, 0⟩ ⟨1, Shape.circle, 12, 0, 10, 0, 0⟩
        [(0, ⟨5, 0, 0⟩), (1, ⟨-5, 0, 0⟩)]).recs 0 = none ∧
      lookupRec (collideStep testMath CollisionPolicy.stop
        ⟨0, Shape.circle, 0, 0, 10, 0, 0⟩ ⟨1, Shape.circle, 12, 0, 10, 0, 0⟩
        [(0, ⟨5, 0, 0⟩), (1, ⟨-5, 0, 0⟩)]).recs 1 = none := by
  have h144 : Rat.sqrt 144 = 12 :=
    ratSqrt_of_sq (by norm_num) (by norm_num)
  have h400 : Rat.sqrt 400 = 20 :=
    ratSqrt_of_sq (by norm_num) (by norm_num)
  have h := c6_collision_stop_tangent_idempotent testMath
    ⟨0, Shape.circle, 0, 0, 10, 0, 0⟩ ⟨1, Shape.circle, 12, 0, 10, 0, 0⟩
    [(0, ⟨5, 0, 0⟩), (1, ⟨-5, 0, 0⟩)] ⟨5, 0, 0⟩ ⟨-5, 0, 0⟩ 12
    (by norm_num) rfl rfl rfl rfl
    (by
      show Rat.sqrt _ = 12
      convert h144 using 2
      norm_num)
    (by norm_num) (by norm_num) (by norm_num [Block.radiusX])
    (by
      intro q hq
      have hq400 : q = 400 := by
        rw [hq]
        norm_num [Block.radiusX]
      subst hq400
      show _ ≤ Rat.sqrt 400
      rw [h400]
      norm_num [Block.radiusX])
  exact ⟨h.2.1, h.2.2.1⟩

/-- Reduction of the bounce branch of the collision resolver under the
overlap and record hypotheses. -/
theorem collideStep_bounce_red (m : JsMath) (bm other : Block)
    (recs : List (Nat × AnimData)) (a1 a2 : AnimData) (d : ℚ)
    (hid : bm.id ≠ other.id)
    (hbs : bm.shape = Shape.circle) (hos : other.shape = Shape.circle)
    (ha1 : lookupRec recs bm.id = some a1)
    (ha2 : lookupRec recs other.id = some a2)
    (hd : m.sqrt ((other.x - bm.x) * (other.x - bm.x) +
      (other.y - bm.y) * (other.y - bm.y)) = d)
    (hlt : d < bm.radiusX + other.radiusX) :
    collideStep m CollisionPolicy.bounce bm other recs =
      ⟨{ bm with x := (bm.x - ((bm.radiusX + other.radiusX - d) * ((other.x - bm.x) / d)) * (1 / 2)), y := (bm.y - ((bm.radiusX + other.radiusX - d) * ((other.y - bm.y) / d)) * (1 / 2)) },
        { other with x := (other.x + ((bm.radiusX + other.radiusX - d) * ((other.x - bm.x) / d)) * (1 / 2)), y := (other.y + ((bm.radiusX + other.radiusX - d) * ((other.y - bm.y) / d)) * (1 / 2)) },
        setRec (setRec recs bm.id
            ⟨((a2.currentSpeedX * ((other.x - bm.x) / d) + a2.currentSpeedY * ((other.y - bm.y) / d)) * ((other.x - bm.x) / d) + (a1.currentSpeedX * (-((other.y - bm.y) / d)) + a1.currentSpeedY * ((other.x - bm.x) / d)) * (-((other.y - bm.y) / d))), ((a2.currentSpeedX * ((other.x - bm.x) / d) + a2.currentSpeedY * ((other.y - bm.y) / d)) * ((other.y - bm.y) / d) + (a1.currentSpeedX * (-((other.y - bm.y) / d)) + a1.currentSpeedY * ((other.x - bm.x) / d)) * ((other.x - bm.x) / d)), m.atan2Deg ((a2.currentSpeedX * ((other.x - bm.x) / d) + a2.currentSpeedY * ((other.y - bm.y) / d)) * ((other.y - bm.y) / d) + (a1.currentSpeedX * (-((other.y - bm.y) / d)) + a1.currentSpeedY * ((other.x - bm.x) / d)) * ((other.x - bm.x) / d)) ((a2.currentSpeedX * ((other.x - bm.x) / d) + a2.currentSpeedY * ((other.y - bm.y) / d)) * ((other.x - bm.x) / d) + (a1.currentSpeedX * (-((other.y - bm.y) / d)) + a1.currentSpeedY * ((other.x - bm.x) / d)) * (-((other.y - bm.y) / d)))⟩) other.id
            ⟨((a1.currentSpeedX * ((other.x - bm.x) / d) + a1.currentSpeedY * ((other.y - bm.y) / d)) * ((other.x - bm.x) / d) + (a2.currentSpeedX * (-((other.y - bm.y) / d)) + a2.currentSpeedY * ((other.x - bm.x) / d)) * (-((other.y - bm.y) / d))), ((a1.currentSpeedX * ((other.x - bm.x) / d) + a1.currentSpeedY * ((other.y - bm.y) / d)) * ((other.y - bm.y) / d) + (a2.currentSpeedX * (-((other.y - bm.y) / d)) + a2.currentSpeedY * ((other.x - bm.x) / d)) * ((other.x - bm.x) / d)), m.atan2Deg ((a1.currentSpeedX * ((other.x - bm.x) / d) + a1.currentSpeedY * ((other.y - bm.y) / d)) * ((other.y - bm.y) / d) + (a2.currentSpeedX * (-((other.y - bm.y) / d)) + a2.currentSpeedY * ((other.x - bm.x) / d)) * ((other.x - bm.x) / d)) ((a1.currentSpeedX * ((other.x - bm.x) / d) + a1.currentSpeedY * ((other.y - bm.y) / d)) * ((other.x - bm.x) / d) + (a2.currentSpeedX * (-((other.y - bm.y) / d)) + a2.currentSpeedY * ((other.x - bm.x) / d)) * (-((other.y - bm.y) / d)))⟩,
        true,
        [(bm.id, (bm.x - ((bm.radiusX + other.radiusX - d) * ((other.x - bm.x) / d)) * (1 / 2)), (bm.y - ((bm.radiusX + other.radiusX - d) * ((other.y - bm.y) / d)) * (1 / 2))), (other.id, (other.x + ((bm.radiusX + other.radiusX - d) * ((other.x - bm.x) / d)) * (1 / 2)), (other.y + ((bm.radiusX + other.radiusX - d) * ((other.y - bm.y) / d)) * (1 / 2)))]⟩ := by
  simp only [collideStep, hd]
  rw [if_neg hid, if_pos (And.intro hbs hos), if_pos hlt, ha1, ha2]

/-- C1 (amended): for an overlapping circle pair under collision policy
bounce, the resolver exchanges the velocity components along the collision
normal (tangent components unchanged) and persists the corrected velocities
and recomputed direction angles into both bodies' AnimationRecords; however
the closure speeds that drive the integration of subsequent ticks are
written only by the boundary branch, never by the collision branch, so each
body's subsequent ticks keep moving with the pre-collision velocity. -/
theorem c1_bounce_exchange_persisted_records_only (m : JsMath)
    (bm other : Block) (recs : List (Nat × AnimData)) (a1 a2 : AnimData)
    (d : ℚ)
    (hid : bm.id ≠ other.id)
    (hbs : bm.shape = Shape.circle) (hos : other.shape = Shape.circle)
    (ha1 : lookupRec recs bm.id = some a1)
    (ha2 : lookupRec recs other.id = some a2)
    (hd : m.sqrt ((other.x - bm.x) * (other.x - bm.x) +
      (other.y - bm.y) * (other.y - bm.y)) = d)
    (hdsq : d * d = (other.x - bm.x) * (other.x - bm.x) +
      (other.y - bm.y) * (other.y - bm.y))
    (hdpos : 0 < d)
    (hlt : d < bm.radiusX + other.radiusX) :
    (∃ b1 b2 : AnimData,
      lookupRec (collideStep m CollisionPolicy.bounce bm other recs).recs bm.id
          = some b1 ∧
        lookupRec (collideStep m CollisionPolicy.bounce bm other recs).recs
          other.id = some b2 ∧
        b1.currentSpeedX * ((other.x - bm.x) / d) + b1.currentSpeedY * ((other.y - bm.y) / d) =
          a2.currentSpeedX * ((other.x - bm.x) / d) + a2.currentSpeedY * ((other.y - bm.y) / d) ∧
        b2.currentSpeedX * ((other.x - bm.x) / d) + b2.currentSpeedY * ((other.y - bm.y) / d) =
          a1.currentSpeedX * ((other.x - bm.x) / d) + a1.currentSpeedY * ((other.y - bm.y) / d) ∧
        b1.currentSpeedX * (-((other.y - bm.y) / d)) + b1.currentSpeedY * ((other.x - bm.x) / d) =
          a1.currentSpeedX * (-((other.y - bm.y) / d)) + a1.currentSpeedY * ((other.x - bm.x) / d) ∧
        b2.currentSpeedX * (-((other.y - bm.y) / d)) + b2.currentSpeedY * ((other.x - bm.x) / d) =
          a2.currentSpeedX * (-((other.y - bm.y) / d)) + a2.currentSpeedY * ((other.x - bm.x) / d) ∧
        b1.angle = m.atan2Deg b1.currentSpeedY b1.currentSpeedX ∧
        b2.angle = m.atan2Deg b2.currentSpeedY b2.currentSpeedX ∧
        (collideStep m CollisionPolicy.bounce bm other recs).resolved = true) ∧
      (∀ (bp : BoundaryPolicy) (cp : CollisionPolicy) (c : ClosureState)
        (blk : Block) (roster : List Block) (recs2 : List (Nat × AnimData))
        (dt : ℚ),
        (animate m bp cp c blk roster recs2 dt).closure =
          { c with
            vx := (boundaryStep bp c.sw c.sh c.vx c.vy
                { blk with x := blk.x + c.vx * dt, y := blk.y + c.vy * dt }).vx
            vy := (boundaryStep bp c.sw c.sh c.vx c.vy
                { blk with x := blk.x + c.vx * dt, y := blk.y + c.vy * dt }).vy
          }) := by
  have hdne : d ≠ 0 := ne_of_gt hdpos
  have hnn : ((other.x - bm.x) / d) * ((other.x - bm.x) / d) + ((other.y - bm.y) / d) * ((other.y - bm.y) / d) = 1 := by
    field_simp
    linear_combination -hdsq
  constructor
  · rw [collideStep_bounce_red m bm other recs a1 a2 d hid hbs hos ha1 ha2 hd
      hlt]
    dsimp only
    refine ⟨⟨((a2.currentSpeedX * ((other.x - bm.x) / d) + a2.currentSpeedY * ((other.y - bm.y) / d)) * ((other.x - bm.x) / d) + (a1.currentSpeedX * (-((other.y - bm.y) / d)) + a1.currentSpeedY * ((other.x - bm.x) / d)) * (-((other.y - bm.y) / d))), ((a2.currentSpeedX * ((other.x - bm.x) / d) + a2.currentSpeedY * ((other.y - bm.y) / d)) * ((other.y - bm.y) / d) + (a1.currentSpeedX * (-((other.y - bm.y) / d)) + a1.currentSpeedY * ((other.x - bm.x) / d)) * ((other.x - bm.x) / d)), m.atan2Deg ((a2.currentSpeedX * ((other.x - bm.x) / d) + a2.currentSpeedY * ((other.y - bm.y) / d)) * ((other.y - bm.y) / d) + (a1.currentSpeedX * (-((other.y - bm.y) / d)) + a1.currentSpeedY * ((other.x - bm.x) / d)) * ((other.x - bm.x) / d)) ((a2.currentSpeedX * ((other.x - bm.x) / d) + a2.currentSpeedY * ((other.y - bm.y) / d)) * ((other.x - bm.x) / d) + (a1.currentSpeedX * (-((other.y - bm.y) / d)) + a1.currentSpeedY * ((other.x - bm.x) / d)) * (-((other.y - bm.y) / d)))⟩,
      ⟨((a1.currentSpeedX * ((other.x - bm.x) / d) + a1.currentSpeedY * ((other.y - bm.y) / d)) * ((other.x - bm.x) / d) + (a2.currentSpeedX * (-((other.y - bm.y) / d)) + a2.currentSpeedY * ((other.x - bm.x) / d)) * (-((other.y - bm.y) / d))), ((a1.currentSpeedX * ((other.x - bm.x) / d) + a1.currentSpeedY * ((other.y - bm.y) / d)) * ((other.y - bm.y) / d) + (a2.currentSpeedX * (-((other.y - bm.y) / d)) + a2.currentSpeedY * ((other.x - bm.x) / d)) * ((other.x - bm.x) / d)), m.atan2Deg ((a1.currentSpeedX * ((other.x - bm.x) / d) + a1.currentSpeedY * ((other.y - bm.y) / d)) * ((other.y - bm.y) / d) + (a2.currentSpeedX * (-((other.y - bm.y) / d)) + a2.currentSpeedY * ((other.x - bm.x) / d)) * ((other.x - bm.x) / d)) ((a1.currentSpeedX * ((other.x - bm.x) / d) + a1.currentSpeedY * ((other.y - bm.y) / d)) * ((other.x - bm.x) / d) + (a2.currentSpeedX * (-((other.y - bm.y) / d)) + a2.currentSpeedY * ((other.x - bm.x) / d)) * (-((other.y - bm.y) / d)))⟩,
      ?_, ?_, ?_, ?_, ?_, ?_, rfl, rfl, rfl⟩
    · rw [lookupRec_setRec_ne _ hid, lookupRec_setRec, ha1]
      rfl
    · rw [lookupRec_setRec, lookupRec_setRec_ne _ (Ne.symm hid), ha2]
      rfl
    · rw [show ((a2.currentSpeedX * ((other.x - bm.x) / d) + a2.currentSpeedY * ((other.y - bm.y) / d)) * ((other.x - bm.x) / d) + (a1.currentSpeedX * (-((other.y - bm.y) / d)) + a1.currentSpeedY * ((other.x - bm.x) / d)) * (-((other.y - bm.y) / d))) * ((other.x - bm.x) / d) + ((a2.currentSpeedX * ((other.x - bm.x) / d) + a2.currentSpeedY * ((other.y - bm.y) / d)) * ((other.y - bm.y) / d) + (a1.currentSpeedX * (-((other.y - bm.y) / d)) + a1.currentSpeedY * ((other.x - bm.x) / d)) * ((other.x - bm.x) / d)) * ((other.y - bm.y) / d) =
          (a2.currentSpeedX * ((other.x - bm.x) / d) + a2.currentSpeedY * ((other.y - bm.y) / d)) * (((other.x - bm.x) / d) * ((other.x - bm.x) / d) + ((other.y - bm.y) / d) * ((other.y - bm.y) / d)) from by ring, hnn, mul_one]
    · rw [show ((a1.currentSpeedX * ((other.x - bm.x) / d) + a1.currentSpeedY * ((other.y - bm.y) / d)) * ((other.x - bm.x) / d) + (a2.currentSpeedX * (-((other.y - bm.y) / d)) + a2.currentSpeedY * ((other.x - bm.x) / d)) * (-((other.y - bm.y) / d))) * ((other.x - bm.x) / d) + ((a1.currentSpeedX * ((other.x - bm.x) / d) + a1.currentSpeedY * ((other.y - bm.y) / d)) * ((other.y - bm.y) / d) + (a2.currentSpeedX * (-((other.y - bm.y) / d)) + a2.currentSpeedY * ((other.x - bm.x) / d)) * ((other.x - bm.x) / d)) * ((other.y - bm.y) / d) =
          (a1.currentSpeedX * ((other.x - bm.x) / d) + a1.currentSpeedY * ((other.y - bm.y) / d)) * (((other.x - bm.x) / d) * ((other.x - bm.x) / d) + ((other.y - bm.y) / d) * ((other.y - bm.y) / d)) from by ring, hnn, mul_one]
    · rw [show ((a2.currentSpeedX * ((other.x - bm.x) / d) + a2.currentSpeedY * ((other.y - bm.y) / d)) * ((other.x - bm.x) / d) + (a1.currentSpeedX * (-((other.y - bm.y) / d)) + a1.currentSpeedY * ((other.x - bm.x) / d)) * (-((other.y - bm.y) / d))) * (-((other.y - bm.y) / d)) + ((a2.currentSpeedX * ((other.x - bm.x) / d) + a2.currentSpeedY * ((other.y - bm.y) / d)) * ((other.y - bm.y) / d) + (a1.currentSpeedX * (-((other.y - bm.y) / d)) + a1.currentSpeedY * ((other.x - bm.x) / d)) * ((other.x - bm.x) / d)) * ((other.x - bm.x) / d) =
          (a1.currentSpeedX * (-((other.y - bm.y) / d)) + a1.currentSpeedY * ((other.x - bm.x) / d)) * (((other.x - bm.x) / d) * ((other.x - bm.x) / d) + ((other.y - bm.y) / d) * ((other.y - bm.y) / d)) from by ring, hnn, mul_one]
    · rw [show ((a1.currentSpeedX * ((other.x - bm.x) / d) + a1.currentSpeedY * ((other.y - bm.y) / d)) * ((other.x - bm.x) / d) + (a2.currentSpeedX * (-((other.y - bm.y) / d)) + a2.currentSpeedY * ((other.x - bm.x) / d)) * (-((other.y - bm.y) / d))) * (-((other.y - bm.y) / d)) + ((a1.currentSpeedX * ((other.x - bm.x) / d) + a1.currentSpeedY * ((other.y - bm.y) / d)) * ((other.y - bm.y) / d) + (a2.currentSpeedX * (-((other.y - bm.y) / d)) + a2.currentSpeedY * ((other.x - bm.x) / d)) * ((other.x - bm.x) / d)) * ((other.x - bm.x) / d) =
          (a2.currentSpeedX * (-((other.y - bm.y) / d)) + a2.currentSpeedY * ((other.x - bm.x) / d)) * (((other.x - bm.x) / d) * ((other.x - bm.x) / d) + ((other.y - bm.y) / d) * ((other.y - bm.y) / d)) from by ring, hnn, mul_one]
  · intro bp cp c blk roster recs2 dt
    exact animate_closure m bp cp c blk roster recs2 dt

/-- Witness for C1 at the concrete head-on overlapping pair. -/
theorem c1_bounce_exchange_persisted_records_only_witness :
    ∃ b1 b2 : AnimData,
      lookupRec (collideStep testMath CollisionPolicy.bounce
          ⟨0, Shape.circle, 5, 0, 10, 0, 0⟩ ⟨1, Shape.circle, 15, 0, 10, 0, 0⟩
          [(0, ⟨50, 0, 0⟩), (1, ⟨-50, 0, 0⟩)]).recs 0 = some b1 ∧
        lookupRec (collideStep testMath CollisionPolicy.bounce
          ⟨0, Shape.circle, 5, 0, 10, 0, 0⟩ ⟨1, Shape.circle, 15, 0, 10, 0, 0⟩
          [(0, ⟨50, 0, 0⟩), (1, ⟨-50, 0, 0⟩)]).recs 1 = some b2 ∧
        b1.angle = testMath.atan2Deg b1.currentSpeedY b1.currentSpeedX ∧
        b2.angle = testMath.atan2Deg b2.currentSpeedY b2.currentSpeedX := by
  have h100 : Rat.sqrt 100 = 10 := ratSqrt_of_sq (by norm_num) (by norm_num)
  obtain ⟨⟨b1, b2, h1, h2, _, _, _, _, ha1, ha2, _⟩, -⟩ :=
    c1_bounce_exchange_persisted_records_only testMath
      ⟨0, Shape.circle, 5, 0, 10, 0, 0⟩ ⟨1, Shape.circle, 15, 0, 10, 0, 0⟩
      [(0, ⟨50, 0, 0⟩), (1, ⟨-50, 0, 0⟩)] ⟨50, 0, 0⟩ ⟨-50, 0, 0⟩ 10
      (by norm_num) rfl rfl rfl rfl
      (by
        show Rat.sqrt _ = 10
        convert h100 using 2
        norm_num)
      (by norm_num) (by norm_num) (by norm_num [Block.radiusX])
  exact ⟨b1, b2, h1, h2, ha1, ha2⟩

/-- Counterexample for C1 as stated: after a head-on bounce resolution the
moving body's AnimationRecord holds the exchanged velocity (-50, 0), but its
next tick still moves it by +50 pixels per second (the closure speed), not
by the exchanged record velocity. -/
theorem c1_counterexample_next_tick_ignores_record :
    lookupRec (runTicks testMath BoundaryPolicy.pass CollisionPolicy.bounce
        (1 / 10) 1
        ⟨⟨50, 0, 1000, 1000⟩, ⟨0, Shape.circle, 10, 0, 10, 0, 0⟩,
          [⟨1, Shape.circle, 0, 0, 10, 0, 0⟩],
          [(0, ⟨50, 0, 0⟩), (1, ⟨-50, 0, 0⟩)],
          TickOutcome.rescheduled⟩).recs 0 = some ⟨-50, 0, 0⟩ ∧
      (runTicks testMath BoundaryPolicy.pass CollisionPolicy.bounce (1 / 10) 1
        ⟨⟨50, 0, 1000, 1000⟩, ⟨0, Shape.circle, 10, 0, 10, 0, 0⟩,
          [⟨1, Shape.circle, 0, 0, 10, 0, 0⟩],
          [(0, ⟨50, 0, 0⟩), (1, ⟨-50, 0, 0⟩)],
          TickOutcome.rescheduled⟩).blk.x = 35 / 2 ∧
      (runTicks testMath BoundaryPolicy.pass CollisionPolicy.bounce (1 / 10) 2
        ⟨⟨50, 0, 1000, 1000⟩, ⟨0, Shape.circle, 10, 0, 10, 0, 0⟩,
          [⟨1, Shape.circle, 0, 0, 10, 0, 0⟩],
          [(0, ⟨50, 0, 0⟩), (1, ⟨-50, 0, 0⟩)],
          TickOutcome.rescheduled⟩).blk.x = 45 / 2 ∧
      ¬((runTicks testMath BoundaryPolicy.pass CollisionPolicy.bounce (1 / 10) 2
        ⟨⟨50, 0, 1000, 1000⟩, ⟨0, Shape.circle, 10, 0, 10, 0, 0⟩,
          [⟨1, Shape.circle, 0, 0, 10, 0, 0⟩],
          [(0, ⟨50, 0, 0⟩), (1, ⟨-50, 0, 0⟩)],
          TickOutcome.rescheduled⟩).blk.x =
        (runTicks testMath BoundaryPolicy.pass CollisionPolicy.bounce (1 / 10) 1
        ⟨⟨50, 0, 1000, 1000⟩, ⟨0, Shape.circle, 10, 0, 10, 0, 0⟩,
          [⟨1, Shape.circle, 0, 0, 10, 0, 0⟩],
          [(0, ⟨50, 0, 0⟩), (1, ⟨-50, 0, 0⟩)],
          TickOutcome.rescheduled⟩).blk.x + -50 * (1 / 10)) := by
  have h225 : Rat.sqrt 225 = 15 := ratSqrt_of_sq (by norm_num) (by norm_num)
  have h625 : Rat.sqrt 625 = 25 := ratSqrt_of_sq (by norm_num) (by norm_num)
  have h1 : stepRun testMath BoundaryPolicy.pass CollisionPolicy.bounce (1 / 10)
      ⟨⟨50, 0, 1000, 1000⟩, ⟨0, Shape.circle, 10, 0, 10, 0, 0⟩,
        [⟨1, Shape.circle, 0, 0, 10, 0, 0⟩],
        [(0, ⟨50, 0, 0⟩), (1, ⟨-50, 0, 0⟩)], TickOutcome.rescheduled⟩ =
      ⟨⟨50, 0, 1000, 1000⟩, ⟨0, Shape.circle, 35 / 2, 0, 10, 0, 0⟩,
        [⟨1, Shape.circle, -5 / 2, 0, 10, 0, 0⟩],
        [(0, ⟨-50, 0, 0⟩), (1, ⟨50, 0, 0⟩)], TickOutcome.rescheduled⟩ := by
    norm_num +decide [stepRun, animate, boundaryStep, collideLoop, collideStep,
      lookupRec, setRec, removeRec, List.find?, List.map, List.filter,
      positiveModulo, jsRem, ratTrunc_eq, radiusX_circle, radiusY_circle,
      (show ((0 : Nat) == 1) = false from rfl),
      (show ((1 : Nat) == 0) = false from rfl),
      (show ((0 : Nat) == 0) = true from rfl),
      (show ((1 : Nat) == 1) = true from rfl),
      testMath, h225]
  have h2 : stepRun testMath BoundaryPolicy.pass CollisionPolicy.bounce (1 / 10)
      ⟨⟨50, 0, 1000, 1000⟩, ⟨0, Shape.circle, 35 / 2, 0, 10, 0, 0⟩,
        [⟨1, Shape.circle, -5 / 2, 0, 10, 0, 0⟩],
        [(0, ⟨-50, 0, 0⟩), (1, ⟨50, 0, 0⟩)], TickOutcome.rescheduled⟩ =
      ⟨⟨50, 0, 1000, 1000⟩, ⟨0, Shape.circle, 45 / 2, 0, 10, 0, 0⟩,
        [⟨1, Shape.circle, -5 / 2, 0, 10, 0, 0⟩],
        [(0, ⟨-50, 0, 0⟩), (1, ⟨50, 0, 0⟩)], TickOutcome.rescheduled⟩ := by
    norm_num +decide [stepRun, animate, boundaryStep, collideLoop, collideStep,
      lookupRec, setRec, removeRec, List.find?, List.map, List.filter,
      positiveModulo, jsRem, ratTrunc_eq, radiusX_circle, radiusY_circle,
      (show ((0 : Nat) == 1) = false from rfl),
      (show ((1 : Nat) == 0) = false from rfl),
      (show ((0 : Nat) == 0) = true from rfl),
      (show ((1 : Nat) == 1) = true from rfl),
      testMath, h625]
  have hr1 : runTicks testMath BoundaryPolicy.pass CollisionPolicy.bounce
      (1 / 10) 1
      ⟨⟨50, 0, 1000, 1000⟩, ⟨0, Shape.circle, 10, 0, 10, 0, 0⟩,
        [⟨1, Shape.circle, 0, 0, 10, 0, 0⟩],
        [(0, ⟨50, 0, 0⟩), (1, ⟨-50, 0, 0⟩)], TickOutcome.rescheduled⟩ =
      ⟨⟨50, 0, 1000, 1000⟩, ⟨0, Shape.circle, 35 / 2, 0, 10, 0, 0⟩,
        [⟨1, Shape.circle, -5 / 2, 0, 10, 0, 0⟩],
        [(0, ⟨-50, 0, 0⟩), (1, ⟨50, 0, 0⟩)], TickOutcome.rescheduled⟩ := by
    simp only [runTicks]
    rw [h1]
  have hr2 : runTicks testMath BoundaryPolicy.pass CollisionPolicy.bounce
      (1 / 10) 2
      ⟨⟨50, 0, 1000, 1000⟩, ⟨0, Shape.circle, 10, 0, 10, 0, 0⟩,
        [⟨1, Shape.circle, 0, 0, 10, 0, 0⟩],
        [(0, ⟨50, 0, 0⟩), (1, ⟨-50, 0, 0⟩)], TickOutcome.rescheduled⟩ =
      ⟨⟨50, 0, 1000, 1000⟩, ⟨0, Shape.circle, 45 / 2, 0, 10, 0, 0⟩,
        [⟨1, Shape.circle, -5 / 2, 0, 10, 0, 0⟩],
        [(0, ⟨-50, 0, 0⟩), (1, ⟨50, 0, 0⟩)], TickOutcome.rescheduled⟩ := by
    show runTicks testMath BoundaryPolicy.pass CollisionPolicy.bounce (1 / 10)
      (1 + 1) _ = _
    simp only [runTicks]
    rw [h1, h2]
  rw [hr1, hr2]
  refine ⟨rfl, rfl, rfl, by norm_num⟩

/-- C2 (amended): under collision policy stop, at most one collision is
resolved per tick — the first resolution removes the moving body's record,
so every later partner in roster order is skipped.  (Under policy bounce the
loop has no early exit and can resolve several partners in one tick; see
the separate counterexample run.) -/
theorem c2_stop_at_most_one_resolution_per_tick (m : JsMath)
    (bp : BoundaryPolicy) (c : ClosureState) (blk : Block)
    (roster : List Block) (recs : List (Nat × AnimData)) (dt : ℚ) :
    (animate m bp CollisionPolicy.stop c blk roster recs dt).resolvedIds.length
      ≤ 1 :=
  animate_stop_le_one m bp c blk roster recs dt

/-- Counterexample for C2 as stated: under collision policy bounce a single
tick resolves collisions against two different partners (ids 1 and 2) in
roster order — the loop does not stop after the first detected overlap. -/
theorem c2_counterexample_two_resolutions_in_one_tick :
    (animate testMath BoundaryPolicy.pass CollisionPolicy.bounce
        ⟨10, 0, 1000, 1000⟩ ⟨0, Shape.circle, 0, 0, 10, 0, 0⟩
        [⟨1, Shape.circle, 6, 0, 10, 0, 0⟩, ⟨2, Shape.circle, -4, 6, 10, 0, 0⟩]
        [(0, ⟨10, 0, 0⟩), (1, ⟨0, 0, 0⟩), (2, ⟨0, 0, 0⟩)]
        (1 / 10)).resolvedIds = [1, 2] ∧
      1 < (animate testMath BoundaryPolicy.pass CollisionPolicy.bounce
        ⟨10, 0, 1000, 1000⟩ ⟨0, Shape.circle, 0, 0, 10, 0, 0⟩
        [⟨1, Shape.circle, 6, 0, 10, 0, 0⟩, ⟨2, Shape.circle, -4, 6, 10, 0, 0⟩]
        [(0, ⟨10, 0, 0⟩), (1, ⟨0, 0, 0⟩), (2, ⟨0, 0, 0⟩)]
        (1 / 10)).resolvedIds.length := by
  have h25 : Rat.sqrt 25 = 5 := ratSqrt_of_sq (by norm_num) (by norm_num)
  have h169 : Rat.sqrt (169 / 4) = 13 / 2 :=
    ratSqrt_of_sq (by norm_num) (by norm_num)
  have hres : (animate testMath BoundaryPolicy.pass CollisionPolicy.bounce
      ⟨10, 0, 1000, 1000⟩ ⟨0, Shape.circle, 0, 0, 10, 0, 0⟩
      [⟨1, Shape.circle, 6, 0, 10, 0, 0⟩, ⟨2, Shape.circle, -4, 6, 10, 0, 0⟩]
      [(0, ⟨10, 0, 0⟩), (1, ⟨0, 0, 0⟩), (2, ⟨0, 0, 0⟩)]
      (1 / 10)).resolvedIds = [1, 2] := by
    norm_num +decide [animate, boundaryStep, collideLoop, collideStep,
      lookupRec, setRec, removeRec, List.find?, List.map, List.filter,
      positiveModulo, jsRem, ratTrunc_eq, radiusX_circle, radiusY_circle,
      (show ((0 : Nat) == 1) = false from rfl),
      (show ((1 : Nat) == 0) = false from rfl),
      (show ((0 : Nat) == 2) = false from rfl),
      (show ((2 : Nat) == 0) = false from rfl),
      (show ((1 : Nat) == 2) = false from rfl),
      (show ((2 : Nat) == 1) = false from rfl),
      (show ((0 : Nat) == 0) = true from rfl),
      (show ((1 : Nat) == 1) = true from rfl),
      (show ((2 : Nat) == 2) = true from rfl),
      testMath, h25, h169]
  refine ⟨hres, ?_⟩
  rw [hres]
  norm_num

/-- Invariance of the captured screen extents across a tick. -/
theorem stepRun_extents (m : JsMath) (bp : BoundaryPolicy)
    (cp : CollisionPolicy) (dt : ℚ) (s : RunState) :
    (stepRun m bp cp dt s).closure.sw = s.closure.sw ∧
      (stepRun m bp cp dt s).closure.sh = s.closure.sh := by
  simp only [stepRun]
  split_ifs with h
  · rw [animate_closure]
    exact ⟨rfl, rfl⟩
  · exact ⟨rfl, rfl⟩

/-- C3 (amended): every tick tests boundary crossings against the screen
extents captured when the motion started: running the source against any
schedule of current viewport extents gives exactly the behavior the
specification's current-extents semantics would give if the viewport never
changed from the captured extents.  A resize is therefore not seen by an
in-flight motion (the bundled component instead stops and restarts all
animations on resize, re-capturing extents). -/
theorem c3_ticks_use_captured_extents (m : JsMath) (bp : BoundaryPolicy)
    (cp : CollisionPolicy) :
    ∀ (sched : List (ℚ × ℚ × ℚ)) (s : RunState),
      codeRunSched m bp cp sched s =
        specRunSched m bp cp
          (sched.map (fun e => (e.1, s.closure.sw, s.closure.sh))) s
  | [], _ => rfl
  | (dt, w, h) :: rest, s => by
    have hext := stepRun_extents m bp cp dt s
    have ih := c3_ticks_use_captured_extents m bp cp rest (stepRun m bp cp dt s)
    simp only [codeRunSched, specRunSched, List.map]
    rw [show ({ s with closure :=
        { s.closure with sw := s.closure.sw, sh := s.closure.sh } } : RunState)
        = s from rfl]
    rw [ih]
    simp only [hext.1, hext.2]

/-- Counterexample for C3 as stated: with captured extents 200 by 200 and a
viewport narrowed to width 100 before the second tick, the code's second
tick still clamps against width 200 (x ends at 175 and under the
current-extents semantics of the specification it would end at 75). -/
theorem c3_counterexample_resize_not_seen :
    (codeRunSched testMath BoundaryPolicy.front CollisionPolicy.pass
        [(1, 200, 200), (1, 100, 200)]
        ⟨⟨100, 0, 200, 200⟩, ⟨0, Shape.circle, 0, 0, 25, 0, 0⟩, [],
          [(0, ⟨100, 0, 0⟩)], TickOutcome.rescheduled⟩).blk.x = 175 ∧
      (specRunSched testMath BoundaryPolicy.front CollisionPolicy.pass
        [(1, 200, 200), (1, 100, 200)]
        ⟨⟨100, 0, 200, 200⟩, ⟨0, Shape.circle, 0, 0, 25, 0, 0⟩, [],
          [(0, ⟨100, 0, 0⟩)], TickOutcome.rescheduled⟩).blk.x = 75 ∧
      ¬((codeRunSched testMath BoundaryPolicy.front CollisionPolicy.pass
        [(1, 200, 200), (1, 100, 200)]
        ⟨⟨100, 0, 200, 200⟩, ⟨0, Shape.circle, 0, 0, 25, 0, 0⟩, [],
          [(0, ⟨100, 0, 0⟩)], TickOutcome.rescheduled⟩).blk.x =
        (specRunSched testMath BoundaryPolicy.front CollisionPolicy.pass
        [(1, 200, 200), (1, 100, 200)]
        ⟨⟨100, 0, 200, 200⟩, ⟨0, Shape.circle, 0, 0, 25, 0, 0⟩, [],
          [(0, ⟨100, 0, 0⟩)], TickOutcome.rescheduled⟩).blk.x) := by
  have h1 : stepRun testMath BoundaryPolicy.front CollisionPolicy.pass 1
      ⟨⟨100, 0, 200, 200⟩, ⟨0, Shape.circle, 0, 0, 25, 0, 0⟩, [],
        [(0, ⟨100, 0, 0⟩)], TickOutcome.rescheduled⟩ =
      ⟨⟨100, 0, 200, 200⟩, ⟨0, Shape.circle, 100, 0, 25, 0, 0⟩, [],
        [(0, ⟨100, 0, 0⟩)], TickOutcome.rescheduled⟩ := by
    norm_num [stepRun, animate, boundaryStep, radiusX_circle, radiusY_circle,
      lookupRec, List.find?, testMath]
  have h2 : stepRun testMath BoundaryPolicy.front CollisionPolicy.pass 1
      ⟨⟨100, 0, 200, 200⟩, ⟨0, Shape.circle, 100, 0, 25, 0, 0⟩, [],
        [(0, ⟨100, 0, 0⟩)], TickOutcome.rescheduled⟩ =
      ⟨⟨100, 0, 200, 200⟩, ⟨0, Shape.circle, 175, 0, 25, 0, 0⟩, [], [],
        TickOutcome.terminal⟩ := by
    norm_num [stepRun, animate, boundaryStep, radiusX_circle, radiusY_circle,
      lookupRec, removeRec, List.find?, List.filter, testMath]
  have h3 : stepRun testMath BoundaryPolicy.front CollisionPolicy.pass 1
      ⟨⟨100, 0, 100, 200⟩, ⟨0, Shape.circle, 100, 0, 25, 0, 0⟩, [],
        [(0, ⟨100, 0, 0⟩)], TickOutcome.rescheduled⟩ =
      ⟨⟨100, 0, 100, 200⟩, ⟨0, Shape.circle, 75, 0, 25, 0, 0⟩, [], [],
        TickOutcome.terminal⟩ := by
    norm_num [stepRun, animate, boundaryStep, radiusX_circle, radiusY_circle,
      lookupRec, removeRec, List.find?, List.filter, testMath]
  have hcode : (codeRunSched testMath BoundaryPolicy.front CollisionPolicy.pass
      [(1, 200, 200), (1, 100, 200)]
      ⟨⟨100, 0, 200, 200⟩, ⟨0, Shape.circle, 0, 0, 25, 0, 0⟩, [],
        [(0, ⟨100, 0, 0⟩)], TickOutcome.rescheduled⟩) =
      ⟨⟨100, 0, 200, 200⟩, ⟨0, Shape.circle, 175, 0, 25, 0, 0⟩, [], [],
        TickOutcome.terminal⟩ := by
    simp only [codeRunSched]
    rw [h1, h2]
  have hspec : (specRunSched testMath BoundaryPolicy.front CollisionPolicy.pass
      [(1, 200, 200), (1, 100, 200)]
      ⟨⟨100, 0, 200, 200⟩, ⟨0, Shape.circle, 0, 0, 25, 0, 0⟩, [],
        [(0, ⟨100, 0, 0⟩)], TickOutcome.rescheduled⟩) =
      ⟨⟨100, 0, 100, 200⟩, ⟨0, Shape.circle, 75, 0, 25, 0, 0⟩, [], [],
        TickOutcome.terminal⟩ := by
    simp [specRunSched, h1, h3]
  rw [hcode, hspec]
  norm_num

/-- C4 is a code bug: when a front-policy terminal stop and a stop-policy
collision happen in the same tick, the collision removes the body's record
and the final `stopAnimation` branch then dereferences the missing record
(src/paperfold.js:476 reads `.animationFrameId` of `undefined`), so the
tick throws instead of completing; the visual-sync calls made up to that
point, including the final clamped pose, have already happened. -/
theorem c4_terminal_after_stop_collision_errors :
    (animate testMath BoundaryPolicy.front CollisionPolicy.stop
        ⟨100, 0, 200, 200⟩ ⟨0, Shape.circle, 185, 100, 10, 0, 0⟩
        [⟨1, Shape.circle, 195, 100, 10, 0, 0⟩]
        [(0, ⟨100, 0, 0⟩), (1, ⟨0, 0, 0⟩)] (1 / 10)).outcome =
      TickOutcome.errored ∧
      (animate testMath BoundaryPolicy.front CollisionPolicy.stop
        ⟨100, 0, 200, 200⟩ ⟨0, Shape.circle, 185, 100, 10, 0, 0⟩
        [⟨1, Shape.circle, 195, 100, 10, 0, 0⟩]
        [(0, ⟨100, 0, 0⟩), (1, ⟨0, 0, 0⟩)] (1 / 10)).visuals =
        [(0, 365 / 2, 100), (1, 405 / 2, 100), (0, 365 / 2, 100)] := by
  have h25 : Rat.sqrt 25 = 5 := ratSqrt_of_sq (by norm_num) (by norm_num)
  constructor <;>
    norm_num +decide [animate, boundaryStep, collideLoop, collideStep,
      lookupRec, setRec, removeRec, List.find?, List.map, List.filter,
      radiusX_circle, radiusY_circle,
      (show ((0 : Nat) == 1) = false from rfl),
      (show ((1 : Nat) == 0) = false from rfl),
      (show ((0 : Nat) == 0) = true from rfl),
      (show ((1 : Nat) == 1) = true from rfl),
      testMath, h25]
